import Mathlib

/-!
# Bluetooth module configuration sequence (`src/bluetooth.cpp`)

A shallow embedding of `openxc::bluetooth::configureExternalModule`,
`setStatus`, `openxc::bluetooth::initialize` and
`openxc::bluetooth::deinitialize`.

The C++ code is sequential and talks to four collaborators that are not part
of the file: the AT-commander library (`at_commander_*`), the GPIO driver
(`gpio::setDirection`, `gpio::setValue`), the UART driver
(`uart::initializeCommon`) and the utilities `delayMs` and `debug`.  Every call
to a collaborator is recorded, in program order, in `World.trace`.  The
answers of the AT-commander library (return value and what it leaves in the
caller's buffer) come from a `Module`, an arbitrary function of the AT calls
issued so far and of the call being made; theorems quantify over all of them.

The `AtCommanderConfig` the function fills in (lines 45-52) is the same in
every call and is left out of the calls.  The wrappers `changeBaudRate`,
`readByte` and `writeByte` (lines 32-42) are callbacks handed to the library;
what the library does with them is part of the exchange the `Module` answers.
Of the device, the library writes the buffers it is handed and nothing else;
the variable `BLUETOOTH_STORE_REMOTE_ADDRESS` is `static`, so only this file
writes it.
-/

namespace openxc.bluetooth

/-! ## C strings and the `<string.h>` functions the file uses -/

/-- The terminating character of a C string. -/
def NUL : Char := Char.ofNat 0

/-- The C string held by a character buffer: the characters before the first
NUL.  A buffer is a `List Char`; reading at or past its end reads a NUL. -/
def cstr (buf : List Char) : List Char := buf.takeWhile (fun c => c != NUL)

/-- The call `strcpy(dest, src)`: the characters of the C string `src` and a
terminating NUL are stored at the start of `dest`; the bytes of `dest` behind
them keep their value.  Like the C call, it does not look at the size of
`dest`. -/
def strcpy (dest src : List Char) : List Char :=
  cstr src ++ NUL :: dest.drop ((cstr src).length + 1)

/-- Search of `needle` in a NUL-free text, `i` being the offset of the text in
the original string. -/
def strstrAux (needle : List Char) : List Char → Nat → Option Nat
  | [], i => if needle.isEmpty then some i else none
  | c :: cs, i =>
    if needle.isPrefixOf (c :: cs) then some i else strstrAux needle cs (i + 1)

/-- The call `strstr(haystack, needle)`: the offset of the first occurrence of
the C string `needle` in the C string `haystack`, `none` standing for the
`NULL` result. -/
def strstr (haystack needle : List Char) : Option Nat :=
  strstrAux (cstr needle) (cstr haystack) 0

/-- The call `strncmp(s1, s2, n)`: compares at most `n` characters, stops
behind a NUL, and returns the difference of the first two characters that
differ (0 when there are none). -/
def strncmp : List Char → List Char → Nat → Int
  | _, _, 0 => 0
  | s1, s2, n + 1 =>
    let c1 := s1.headD NUL
    let c2 := s2.headD NUL
    if c1 ≠ c2 then (c1.toNat : Int) - (c2.toNat : Int)
    else if c1 = NUL then 0
    else strncmp s1.tail s2.tail n

/-! ## Data model -/

/-- The fields of `UartDevice` (declared in `interface/uart.h`) that
`bluetooth.cpp` reads or writes.  `deviceId` is the `char` array;
`sizeof(device->deviceId)` is its length. -/
structure UartDevice where
  baudRate : Int
  deviceId : List Char
deriving DecidableEq, Repr

/-- The struct `AtCommand` of the AT-commander library, as initialised by the
designated initialisers of the file (`NULL` is `none`). -/
structure AtCommand where
  request_format : String
  expected_response : Option String
  error_response : String
deriving DecidableEq, Repr

/-- The variadic argument of `at_commander_set`: the file passes a string
(`"0200"`) or an `int` (`desiredMode`). -/
inductive AtArg where
  | str (s : String)
  | int (n : Int)
deriving DecidableEq, Repr

/-- One call into the AT-commander library, with the arguments the file
passes (the `config` argument is the same in every call). -/
inductive AtCall where
  | set_baud (baud : Int)
  | set_name (name : String) (serialized : Bool)
  | get_device_id (size : Nat)
  | set_configuration_timer (timeout : Int)
  | set (command : AtCommand) (arg : AtArg)
  | get (command : AtCommand) (size : Nat)
  | reboot
deriving DecidableEq, Repr

/-- What one call of the AT-commander library gives back: its return value
(`bool` results are read the C way, non-zero is true) and, for the calls that
take a response buffer, the content of that buffer when the call returns. -/
structure Reply where
  ret : Int
  buffer : List Char
deriving DecidableEq, Repr

inductive GpioDirection where
  | GPIO_DIRECTION_INPUT
  | GPIO_DIRECTION_OUTPUT
deriving DecidableEq, Repr

inductive GpioValue where
  | GPIO_VALUE_HIGH
  | GPIO_VALUE_LOW
deriving DecidableEq, Repr

/-- One observable action of the file, in the order the code performs them. -/
inductive Event where
  | delayMs (ms : Nat)
  | debug (format : String)
  | exchange (call : AtCall) (reply : Reply)
  | gpio_setDirection (port pin : Nat) (direction : GpioDirection)
  | gpio_setValue (port pin : Nat) (value : GpioValue)
  | uart_initializeCommon
deriving DecidableEq, Repr

/-- The macros of `bluetooth_platforms.h` the file tests or uses; the header
is not part of the sources, so they are parameters. -/
structure Platform where
  BLUETOOTH_SUPPORT : Bool
  BLUETOOTH_ENABLE_SUPPORT : Bool
  BLUETOOTH_ENABLE_PIN_POLARITY : Bool
  BLUETOOTH_ENABLE_PORT : Nat
  BLUETOOTH_ENABLE_PIN : Nat
deriving DecidableEq, Repr

/-- The state the file works on: the `UartDevice` behind the pointer, the
file-scope variable `BLUETOOTH_STORE_REMOTE_ADDRESS`, and the actions
performed so far. -/
structure World where
  device : UartDevice
  BLUETOOTH_STORE_REMOTE_ADDRESS : Bool
  trace : List Event
deriving DecidableEq, Repr

/-- The AT calls among a list of events, in order. -/
def atCalls : List Event → List AtCall
  | [] => []
  | Event.exchange c _ :: es => c :: atCalls es
  | _ :: es => atCalls es

/-- The AT exchanges (call and reply) among a list of events, in order. -/
def exchanges : List Event → List (AtCall × Reply)
  | [] => []
  | Event.exchange c r :: es => (c, r) :: exchanges es
  | _ :: es => exchanges es

/-- The attached module seen through the AT-commander library: its answer to
a call, given the AT calls issued before it. -/
abbrev Module := List AtCall → AtCall → Reply

/-- The events of `w2` that were added after `w1`. -/
def issued (w1 w2 : World) : List Event := w2.trace.drop w1.trace.length

/-! ## Constants of the file -/

def BLUETOOTH_DEVICE_NAME : String := "OpenXC-VI"
def BLUETOOTH_SLAVE_MODE : Int := 0
def BLUETOOTH_PAIRING_MODE : Int := 6
def BLUETOOTH_AUTO_MASTER_MODE : Int := 3

def inquiryCommand : AtCommand :=
  { request_format := "SI,%s\r", expected_response := some "AOK", error_response := "ERR" }

def pagingCommand : AtCommand :=
  { request_format := "SJ,%s\r", expected_response := some "AOK", error_response := "ERR" }

def firmwareVersionCommand : AtCommand :=
  { request_format := "V\r", expected_response := none, error_response := "ERR" }

def modeCommand : AtCommand :=
  { request_format := "SM,%d\r", expected_response := some "AOK", error_response := "ERR" }

def remoteAddressQuery : AtCommand :=
  { request_format := "GR\r", expected_response := none, error_response := "ERR" }

/-! ## Collaborators -/

/-- Records one action. -/
def emit (e : Event) (w : World) : World := { w with trace := w.trace ++ [e] }

/-- The call `delayMs(ms)` (util/timer.h): recorded. -/
def delayMs (ms : Nat) (w : World) : World := emit (Event.delayMs ms) w

/-- The call `debug(format, ...)` (util/log.h): recorded with its format
string. -/
def debug (format : String) (w : World) : World := emit (Event.debug format) w

/-- The call `gpio::setDirection(port, pin, direction)` (gpio.h): recorded. -/
def gpio_setDirection (port pin : Nat) (d : GpioDirection) (w : World) : World :=
  emit (Event.gpio_setDirection port pin d) w

/-- The call `gpio::setValue(port, pin, value)` (gpio.h): recorded. -/
def gpio_setValue (port pin : Nat) (v : GpioValue) (w : World) : World :=
  emit (Event.gpio_setValue port pin v) w

/-- Modelled from the spec: `uart::initializeCommon(device)` (interface/uart.h)
re-initialises the transport ("re-init to flush any junk in the buffer"); the
call is recorded and leaves `baudRate` and `deviceId` as they are. -/
def uart_initializeCommon (w : World) : World := emit Event.uart_initializeCommon w

/-- One call into the AT-commander library: the module answers, given the AT
calls issued before, and the exchange is recorded. -/
def at_commander (m : Module) (c : AtCall) (w : World) : Reply × World :=
  let r := m (atCalls w.trace) c
  (r, emit (Event.exchange c r) w)

/-- The call `bool at_commander_set_baud(config, baud)`. -/
def at_commander_set_baud (m : Module) (baud : Int) (w : World) : Bool × World :=
  let x := at_commander m (AtCall.set_baud baud) w
  (x.1.ret != 0, x.2)

/-- The call `bool at_commander_set_name(config, name, serialized)`. -/
def at_commander_set_name (m : Module) (name : String) (serialized : Bool) (w : World) :
    Bool × World :=
  let x := at_commander m (AtCall.set_name name serialized) w
  (x.1.ret != 0, x.2)

/-- The call `int at_commander_get_device_id(config, buffer, size)`: the
return value and the content of `buffer` afterwards. -/
def at_commander_get_device_id (m : Module) (size : Nat) (w : World) :
    (Int × List Char) × World :=
  let x := at_commander m (AtCall.get_device_id size) w
  ((x.1.ret, x.1.buffer), x.2)

/-- The call `bool at_commander_set_configuration_timer(config, timeout)`. -/
def at_commander_set_configuration_timer (m : Module) (timeout : Int) (w : World) :
    Bool × World :=
  let x := at_commander m (AtCall.set_configuration_timer timeout) w
  (x.1.ret != 0, x.2)

/-- The call `bool at_commander_set(config, command, ...)`. -/
def at_commander_set (m : Module) (command : AtCommand) (arg : AtArg) (w : World) :
    Bool × World :=
  let x := at_commander m (AtCall.set command arg) w
  (x.1.ret != 0, x.2)

/-- The call `int at_commander_get(config, command, buffer, size)`: the return
value and the content of `buffer` afterwards. -/
def at_commander_get (m : Module) (command : AtCommand) (size : Nat) (w : World) :
    (Int × List Char) × World :=
  let x := at_commander m (AtCall.get command size) w
  ((x.1.ret, x.1.buffer), x.2)

/-- The call `bool at_commander_reboot(config)`. -/
def at_commander_reboot (m : Module) (w : World) : Bool × World :=
  let x := at_commander m AtCall.reboot w
  (x.1.ret != 0, x.2)

/-! ## The functions of the file -/

/-- A write to the array `device->deviceId`: the buffer holds `buf` afterwards. -/
def setDeviceId (buf : List Char) (w : World) : World :=
  { w with device := { w.device with deviceId := buf } }

/-- An assignment to the variable `BLUETOOTH_STORE_REMOTE_ADDRESS`. -/
def setStoreRemoteAddress (v : Bool) (w : World) : World :=
  { w with BLUETOOTH_STORE_REMOTE_ADDRESS := v }

/-- The statement `device->deviceId[0] = 0`. -/
def clearDeviceId (w : World) : World :=
  setDeviceId (w.device.deviceId.set 0 NUL) w

/-- Lines 121-148 of `configureExternalModule`: the choice of `desiredMode`
from the firmware version, with the query of the stored remote address. -/
def selectMode (m : Module) (versionString : List Char) (w : World) : Int × World :=
  let desiredMode := BLUETOOTH_SLAVE_MODE
  if (strstr versionString "6.".toList).isSome then
    let w := debug "Bluetooth device is on 6.x firmware - switching to pairing mode" w
    (BLUETOOTH_PAIRING_MODE, w)
  else
    let w := debug "Bluetooth device is on 4.x firmware" w
    let x := at_commander_get m remoteAddressQuery 64 w
    let remoteAddress := x.1.2
    let w := x.2
    if x.1.1 = 0 then
      (desiredMode, debug "Unable to get currently stored remote BT address" w)
    else if strncmp remoteAddress "NOT SET".toList 64 ≠ 0 then
      let w := setStoreRemoteAddress true w
      (BLUETOOTH_AUTO_MASTER_MODE,
        debug "Remote BT address stored - switching to auto-connect master mode" w)
    else
      let w := setStoreRemoteAddress false w
      (BLUETOOTH_SLAVE_MODE, debug "No remote BT address stored - switching to slave mode" w)

/-- The function `openxc::bluetooth::configureExternalModule(UartDevice*)`.
The local buffers `versionString` and `remoteAddress` hold what the library
left in them; `x` is the result of the call just made. -/
def configureExternalModule (m : Module) (w : World) : World :=
  let w := delayMs 500 w
  let x := at_commander_set_baud m w.device.baudRate w
  let w := x.2
  if x.1 then
    let w := debug "Successfully set baud rate" w
    let x := at_commander_set_name m BLUETOOTH_DEVICE_NAME true w
    let w := if x.1 then debug "Successfully set Bluetooth device name" x.2
      else debug "Unable to set Bluetooth device name" x.2
    let x := at_commander_get_device_id m w.device.deviceId.length w
    let w := setDeviceId x.1.2 x.2
    let w := if x.1.1 > 0 then debug "Bluetooth MAC is %s" w
      else clearDeviceId (debug "Unable to get Bluetooth MAC" w)
    let x := at_commander_set_configuration_timer m 0 w
    let w := if x.1 then debug "Successfully disabled remote Bluetooth configuration" x.2
      else debug "Unable to disable remote Bluetooth configuration" x.2
    let x := at_commander_set m inquiryCommand (AtArg.str "0200") w
    let w := if x.1 then debug "Changed Bluetooth inquiry window to 0200" x.2
      else debug "Unable to change Bluetooth inquiry window." x.2
    let x := at_commander_set m pagingCommand (AtArg.str "0200") w
    let w := if x.1 then debug "Changed Bluetooth page scan window to 0200" x.2
      else debug "Unable to change Bluetooth page scan window." x.2
    let x := at_commander_get m firmwareVersionCommand 64 w
    let versionString := x.1.2
    let w := x.2
    let w :=
      if x.1.1 = 0 then
        debug "Unable to determine Bluetooth module firmware version" w
      else
        let w := debug "Bluetooth module is running firmware %s" w
        let y := selectMode m versionString w
        let z := at_commander_set m modeCommand (AtArg.int y.1) y.2
        if z.1 then z.2 else debug "Unable to change Bluetooth device mode" z.2
    (at_commander_reboot m w).2
  else
    debug "Unable to set baud rate of attached UART device" w

/-- The function `setStatus(bool enabled)`; its body is compiled only under
`BLUETOOTH_ENABLE_SUPPORT`. -/
def setStatus (p : Platform) (enabled : Bool) (w : World) : World :=
  if p.BLUETOOTH_ENABLE_SUPPORT then
    let enabled := if p.BLUETOOTH_ENABLE_PIN_POLARITY then enabled else !enabled
    let w := debug "Turning Bluetooth %s" w
    gpio_setValue p.BLUETOOTH_ENABLE_PORT p.BLUETOOTH_ENABLE_PIN
      (if enabled then GpioValue.GPIO_VALUE_HIGH else GpioValue.GPIO_VALUE_LOW) w
  else w

/-- The function `openxc::bluetooth::initialize(UartDevice*)` (the bare name is
reserved in Lean); its body is compiled only under `BLUETOOTH_SUPPORT`, and
the power-enable part of it only under `BLUETOOTH_ENABLE_SUPPORT` as well. -/
def initializeBluetooth (p : Platform) (m : Module) (w : World) : World :=
  if p.BLUETOOTH_SUPPORT then
    let w := debug "Initializing Bluetooth..." w
    let w :=
      if p.BLUETOOTH_ENABLE_SUPPORT then
        let w := gpio_setDirection p.BLUETOOTH_ENABLE_PORT p.BLUETOOTH_ENABLE_PIN
          GpioDirection.GPIO_DIRECTION_OUTPUT w
        setStatus p true w
      else w
    let w := setDeviceId (strcpy w.device.deviceId "Unknown".toList) w
    let w := configureExternalModule m w
    let w := uart_initializeCommon w
    debug "Done." w
  else w

/-- The function `openxc::bluetooth::deinitialize()`, named like
`initializeBluetooth`. -/
def deinitializeBluetooth (p : Platform) (w : World) : World := setStatus p false w

/-! ## Vocabulary of the statements -/

/-- Replays a list of AT calls against a module that has already seen the
calls `h`: each call is paired with the module's answer to it. -/
def replay (m : Module) (h : List AtCall) : List AtCall → List (AtCall × Reply)
  | [] => []
  | c :: cs => (c, m h c) :: replay m (h ++ [c]) cs

/-- The six AT calls from the baud-rate change to the page-scan window. -/
def settingsCalls (b : Int) (n : Nat) : List AtCall :=
  [AtCall.set_baud b, AtCall.set_name BLUETOOTH_DEVICE_NAME true, AtCall.get_device_id n,
    AtCall.set_configuration_timer 0, AtCall.set inquiryCommand (AtArg.str "0200"),
    AtCall.set pagingCommand (AtArg.str "0200")]

/-- The firmware-version query as the file issues it. -/
def versionCall : AtCall := AtCall.get firmwareVersionCommand 64

/-- The stored-remote-address query as the file issues it. -/
def remoteCall : AtCall := AtCall.get remoteAddressQuery 64

/-- The AT calls of one run of `configureExternalModule` against a module that
has seen the calls `h`, for baud rate `b` and a device-id buffer of `n`
bytes (shown equal to the calls of the run in `atCalls_configure`). -/
def callsIssued (m : Module) (h : List AtCall) (b : Int) (n : Nat) : List AtCall :=
  if (m h (AtCall.set_baud b)).ret = 0 then [AtCall.set_baud b]
  else if (m (h ++ settingsCalls b n) versionCall).ret = 0 then
    settingsCalls b n ++ [versionCall, AtCall.reboot]
  else if (strstr (m (h ++ settingsCalls b n) versionCall).buffer "6.".toList).isSome then
    settingsCalls b n ++ [versionCall, AtCall.set modeCommand (AtArg.int 6), AtCall.reboot]
  else if (m (h ++ settingsCalls b n ++ [versionCall]) remoteCall).ret = 0 then
    settingsCalls b n ++
      [versionCall, remoteCall, AtCall.set modeCommand (AtArg.int 0), AtCall.reboot]
  else if strncmp (m (h ++ settingsCalls b n ++ [versionCall]) remoteCall).buffer
      "NOT SET".toList 64 ≠ 0 then
    settingsCalls b n ++
      [versionCall, remoteCall, AtCall.set modeCommand (AtArg.int 3), AtCall.reboot]
  else
    settingsCalls b n ++
      [versionCall, remoteCall, AtCall.set modeCommand (AtArg.int 0), AtCall.reboot]

/-- The arguments of the mode-set commands (`SM`) among a list of AT calls. -/
def modeSetArgs : List AtCall → List AtArg
  | [] => []
  | AtCall.set c a :: cs =>
    if c.request_format = "SM,%d\r" then a :: modeSetArgs cs else modeSetArgs cs
  | _ :: cs => modeSetArgs cs

/-- Whether the call is a stored-remote-address query (`GR`). -/
def isRemoteAddressQuery : AtCall → Bool
  | AtCall.get c _ => decide (c.request_format = "GR\r")
  | _ => false

/-- Whether the call is a firmware-version query (`V`). -/
def isVersionQuery : AtCall → Bool
  | AtCall.get c _ => decide (c.request_format = "V\r")
  | _ => false

/-- The world `initializeBluetooth` hands to `configureExternalModule` when
`BLUETOOTH_SUPPORT` is defined (lines 172-182). -/
def beforeConfigure (p : Platform) (w : World) : World :=
  let w := debug "Initializing Bluetooth..." w
  let w :=
    if p.BLUETOOTH_ENABLE_SUPPORT then
      let w := gpio_setDirection p.BLUETOOTH_ENABLE_PORT p.BLUETOOTH_ENABLE_PIN
        GpioDirection.GPIO_DIRECTION_OUTPUT w
      setStatus p true w
    else w
  setDeviceId (strcpy w.device.deviceId "Unknown".toList) w

/-- Whether the call is a baud-rate change. -/
def isSetBaud : AtCall → Bool
  | AtCall.set_baud _ => true
  | _ => false

/-- The replies, in order, to the exchanges of `evs` whose call satisfies `p`. -/
def repliesTo (p : AtCall → Bool) (evs : List Event) : List Reply :=
  ((exchanges evs).filter (fun x => p x.1)).map Prod.snd

/-! ## Sample inputs -/

/-- A device as the caller hands it over: 9600 baud, and a device-id buffer
of 17 bytes that still holds text of an earlier use. -/
def sampleDevice : UartDevice :=
  { baudRate := 9600, deviceId := "0123456789ABCDEF".toList ++ [NUL] }

/-- The state at start-up: the flag has its initial value `false` and nothing
has happened yet. -/
def powerOn : World :=
  { device := sampleDevice, BLUETOOTH_STORE_REMOTE_ADDRESS := false, trace := [] }

/-- The state at start-up, but with the flag left `true` (as by an earlier run). -/
def flagLeftSet : World :=
  { device := sampleDevice, BLUETOOTH_STORE_REMOTE_ADDRESS := true, trace := [] }

/-- A module that answers nothing: every call of the library returns 0 and
leaves its buffer empty. -/
def silentModule : Module := fun _ _ => { ret := 0, buffer := [] }

/-- A module that accepts every command, reports the device id
`000666000001` and the given firmware version, and gives `remote` as the
outcome of the stored-remote-address query. -/
def respondingModule (version : String) (remote : Reply) : Module := fun _ c =>
  match c with
  | AtCall.get cmd _ =>
    if cmd.request_format = "V\r" then
      { ret := version.length, buffer := version.toList ++ [NUL] }
    else remote
  | AtCall.get_device_id _ =>
    { ret := 12, buffer := "000666000001".toList ++ NUL :: "DEF".toList ++ [NUL] }
  | _ => { ret := 1, buffer := [] }

/-- The outcome of a query that delivers the text `s`. -/
def textReply (s : String) : Reply := { ret := s.length, buffer := s.toList ++ [NUL] }

/-- The outcome of a query that fails: return value 0. -/
def failedReply : Reply := { ret := 0, buffer := [] }

/-- A module like `respondingModule version remote` whose device-id query fails
and leaves the text `junk` in the buffer. -/
def noDeviceIdModule (version : String) (remote : Reply) (junk : String) : Module := fun h c =>
  match c with
  | AtCall.get_device_id _ => { ret := 0, buffer := junk.toList }
  | _ => respondingModule version remote h c

/-- A module that accepts every command but never answers a query. -/
def noVersionModule : Module := fun _ c =>
  match c with
  | AtCall.get _ _ => failedReply
  | _ => { ret := 1, buffer := [] }

/-- A module that accepts the baud-rate change and then answers nothing. -/
def baudOnlyModule : Module := fun _ c =>
  match c with
  | AtCall.set_baud _ => { ret := 1, buffer := [] }
  | _ => failedReply

/-- A platform with Bluetooth and an active-high power-enable pin. -/
def activeHighPlatform : Platform :=
  { BLUETOOTH_SUPPORT := true, BLUETOOTH_ENABLE_SUPPORT := true,
    BLUETOOTH_ENABLE_PIN_POLARITY := true, BLUETOOTH_ENABLE_PORT := 0,
    BLUETOOTH_ENABLE_PIN := 17 }

/-- A platform with Bluetooth and no power-enable pin. -/
def plainPlatform : Platform :=
  { BLUETOOTH_SUPPORT := true, BLUETOOTH_ENABLE_SUPPORT := false,
    BLUETOOTH_ENABLE_PIN_POLARITY := false, BLUETOOTH_ENABLE_PORT := 0,
    BLUETOOTH_ENABLE_PIN := 0 }

/-- A platform that defines the power-enable macros but not `BLUETOOTH_SUPPORT`. -/
def powerOnlyPlatform : Platform :=
  { BLUETOOTH_SUPPORT := false, BLUETOOTH_ENABLE_SUPPORT := true,
    BLUETOOTH_ENABLE_PIN_POLARITY := true, BLUETOOTH_ENABLE_PORT := 0,
    BLUETOOTH_ENABLE_PIN := 17 }

section cstrings

theorem cstr_nil : cstr [] = [] := rfl

theorem cstr_cons (c : Char) (cs : List Char) :
    cstr (c :: cs) = if c = NUL then [] else c :: cstr cs := by
  unfold cstr
  rw [List.takeWhile_cons]
  by_cases h : c = NUL <;> simp [h]

theorem cstr_set_zero (buf : List Char) : cstr (buf.set 0 NUL) = [] := by
  cases buf <;> simp [cstr, List.takeWhile]

theorem cstr_of_not_mem (s : List Char) (h : NUL ∉ s) : cstr s = s := by
  induction s with
  | nil => rfl
  | cons c cs ih =>
    simp only [List.mem_cons, not_or] at h
    rw [cstr_cons, if_neg (fun e => h.1 e.symm), ih h.2]

theorem cstr_append_nul (s rest : List Char) (h : NUL ∉ s) : cstr (s ++ NUL :: rest) = s := by
  induction s with
  | nil => simp [cstr_cons]
  | cons c cs ih =>
    simp only [List.mem_cons, not_or] at h
    rw [List.cons_append, cstr_cons, if_neg (fun e => h.1 e.symm), ih h.2]

theorem nul_not_mem_cstr (buf : List Char) : NUL ∉ cstr buf := by
  induction buf with
  | nil => simp [cstr_nil]
  | cons c cs ih =>
    rw [cstr_cons]
    split
    · simp
    · rename_i h
      simp only [List.mem_cons, not_or]
      exact ⟨fun e => h e.symm, ih⟩

theorem cstr_strcpy (dest src : List Char) : cstr (strcpy dest src) = cstr src := by
  unfold strcpy
  exact cstr_append_nul _ _ (nul_not_mem_cstr src)

theorem strstrAux_isSome (needle text : List Char) (i : Nat) :
    (strstrAux needle text i).isSome = true ↔ needle <:+: text := by
  induction text generalizing i with
  | nil =>
    cases needle <;> simp [strstrAux]
  | cons c cs ih =>
    unfold strstrAux
    rw [List.infix_cons_iff]
    by_cases hp : needle.isPrefixOf (c :: cs) = true
    · simp only [hp, if_true, Option.isSome_some, true_iff]
      exact Or.inl (List.isPrefixOf_iff_prefix.mp hp)
    · have hp2 : ¬ needle <+: c :: cs := fun h => hp (List.isPrefixOf_iff_prefix.mpr h)
      simp only [hp, if_false, ih, hp2, false_or, Bool.false_eq_true]

theorem strstr_isSome (haystack needle : List Char) :
    (strstr haystack needle).isSome = true ↔ cstr needle <:+: cstr haystack :=
  strstrAux_isSome _ _ _

theorem char_toNat_sub_ne (a b : Char) (h : a ≠ b) : (a.toNat : Int) - (b.toNat : Int) ≠ 0 := by
  intro e
  apply h
  have : a.toNat = b.toNat := by omega
  exact Char.ext (UInt32.ext (by simpa [Char.toNat, UInt32.toNat] using this))

theorem strncmp_eq_zero (s : List Char) (hs : NUL ∉ s) (buf : List Char) (n : Nat)
    (hn : s.length < n) : strncmp buf s n = 0 ↔ cstr buf = s := by
  induction s generalizing buf n with
  | nil =>
    obtain ⟨k, rfl⟩ : ∃ k, n = k + 1 := ⟨n - 1, by simp at hn; omega⟩
    cases buf with
    | nil => simp [strncmp, cstr_nil]
    | cons c cs =>
      by_cases hc : c = NUL
      · simp [strncmp, cstr_cons, hc]
      · simp [strncmp, cstr_cons, hc, char_toNat_sub_ne c NUL hc]
  | cons a as ih =>
    simp only [List.mem_cons, not_or] at hs
    obtain ⟨k, rfl⟩ : ∃ k, n = k + 1 := ⟨n - 1, by simp at hn; omega⟩
    have hk : as.length < k := by simpa using hn
    have ha : a ≠ NUL := fun e => hs.1 e.symm
    cases buf with
    | nil =>
      have := char_toNat_sub_ne NUL a (fun e => ha e.symm)
      simp [strncmp, cstr_nil, Ne.symm ha, this]
    | cons c cs =>
      by_cases hc : c = a
      · subst hc
        simp [strncmp, cstr_cons, ha, ih hs.2 cs k hk]
      · have := char_toNat_sub_ne c a hc
        by_cases hc0 : c = NUL
        · subst hc0
          simp [strncmp, cstr_cons, Ne.symm ha, this]
        · simp [strncmp, cstr_cons, hc, hc0, this]

end cstrings

/-! ## Scenarios

Concrete runs, evaluated; they can be traced by hand against the source. -/

section scenarios

/-- Firmware "v4.77", no stored address, on a platform with an active-high
power-enable pin: everything `initialize` does, in order. -/
theorem scenario_not_set_trace :
    issued powerOn (initializeBluetooth activeHighPlatform
      (respondingModule "v4.77" (textReply "NOT SET")) powerOn) =
      [Event.debug "Initializing Bluetooth...",
        Event.gpio_setDirection 0 17 GpioDirection.GPIO_DIRECTION_OUTPUT,
        Event.debug "Turning Bluetooth %s",
        Event.gpio_setValue 0 17 GpioValue.GPIO_VALUE_HIGH,
        Event.delayMs 500,
        Event.exchange (AtCall.set_baud 9600) ⟨1, []⟩,
        Event.debug "Successfully set baud rate",
        Event.exchange (AtCall.set_name "OpenXC-VI" true) ⟨1, []⟩,
        Event.debug "Successfully set Bluetooth device name",
        Event.exchange (AtCall.get_device_id 17)
          ⟨12, "000666000001".toList ++ NUL :: "DEF".toList ++ [NUL]⟩,
        Event.debug "Bluetooth MAC is %s",
        Event.exchange (AtCall.set_configuration_timer 0) ⟨1, []⟩,
        Event.debug "Successfully disabled remote Bluetooth configuration",
        Event.exchange (AtCall.set inquiryCommand (AtArg.str "0200")) ⟨1, []⟩,
        Event.debug "Changed Bluetooth inquiry window to 0200",
        Event.exchange (AtCall.set pagingCommand (AtArg.str "0200")) ⟨1, []⟩,
        Event.debug "Changed Bluetooth page scan window to 0200",
        Event.exchange (AtCall.get firmwareVersionCommand 64) (textReply "v4.77"),
        Event.debug "Bluetooth module is running firmware %s",
        Event.debug "Bluetooth device is on 4.x firmware",
        Event.exchange (AtCall.get remoteAddressQuery 64) (textReply "NOT SET"),
        Event.debug "No remote BT address stored - switching to slave mode",
        Event.exchange (AtCall.set modeCommand (AtArg.int 0)) ⟨1, []⟩,
        Event.exchange AtCall.reboot ⟨1, []⟩,
        Event.uart_initializeCommon,
        Event.debug "Done."] := by
  decide

/-- Firmware "v6.15": the calls of `configureExternalModule`; no `GR` query. -/
theorem scenario_v615_calls :
    atCalls (issued powerOn
      (configureExternalModule (respondingModule "v6.15" failedReply) powerOn)) =
      [AtCall.set_baud 9600, AtCall.set_name "OpenXC-VI" true, AtCall.get_device_id 17,
        AtCall.set_configuration_timer 0, AtCall.set inquiryCommand (AtArg.str "0200"),
        AtCall.set pagingCommand (AtArg.str "0200"), AtCall.get firmwareVersionCommand 64,
        AtCall.set modeCommand (AtArg.int 6), AtCall.reboot] := by
  decide

/-- Firmware "v4.77" with the stored address "00:11:22:33:44:55": the calls of
`configureExternalModule`, and the flag afterwards. -/
theorem scenario_stored_address_calls :
    atCalls (issued powerOn (configureExternalModule
      (respondingModule "v4.77" (textReply "00:11:22:33:44:55")) powerOn)) =
      [AtCall.set_baud 9600, AtCall.set_name "OpenXC-VI" true, AtCall.get_device_id 17,
        AtCall.set_configuration_timer 0, AtCall.set inquiryCommand (AtArg.str "0200"),
        AtCall.set pagingCommand (AtArg.str "0200"), AtCall.get firmwareVersionCommand 64,
        AtCall.get remoteAddressQuery 64, AtCall.set modeCommand (AtArg.int 3),
        AtCall.reboot] ∧
    (configureExternalModule (respondingModule "v4.77" (textReply "00:11:22:33:44:55"))
      powerOn).BLUETOOTH_STORE_REMOTE_ADDRESS = true := by
  decide

/-- A module that answers nothing: everything `initialize` does on a platform
without power-enable pin, and the device-id buffer afterwards. -/
theorem scenario_silent_trace :
    issued powerOn (initializeBluetooth plainPlatform silentModule powerOn) =
      [Event.debug "Initializing Bluetooth...",
        Event.delayMs 500,
        Event.exchange (AtCall.set_baud 9600) ⟨0, []⟩,
        Event.debug "Unable to set baud rate of attached UART device",
        Event.uart_initializeCommon,
        Event.debug "Done."] ∧
    (initializeBluetooth plainPlatform silentModule powerOn).device.deviceId =
      "Unknown".toList ++ NUL :: "89ABCDEF".toList ++ [NUL] := by
  decide

end scenarios

section worlds

theorem atCalls_append (l1 l2 : List Event) : atCalls (l1 ++ l2) = atCalls l1 ++ atCalls l2 := by
  induction l1 with
  | nil => rfl
  | cons e es ih => cases e <;> simp [atCalls, ih]

theorem exchanges_append (l1 l2 : List Event) :
    exchanges (l1 ++ l2) = exchanges l1 ++ exchanges l2 := by
  induction l1 with
  | nil => rfl
  | cons e es ih => cases e <;> simp [exchanges, ih]

theorem atCalls_eq_map (l : List Event) : atCalls l = (exchanges l).map Prod.fst := by
  induction l with
  | nil => rfl
  | cons e es ih => cases e <;> simp [atCalls, exchanges, ih]

theorem map_fst_replay (m : Module) (h cs : List AtCall) :
    (replay m h cs).map Prod.fst = cs := by
  induction cs generalizing h with
  | nil => rfl
  | cons c cs ih => simp [replay, ih]

theorem issued_append (w w2 : World) (evs : List Event) (h : w2.trace = w.trace ++ evs) :
    issued w w2 = evs := by
  simp [issued, h]

theorem ite_debug (c : Prop) [Decidable c] (a b : String) (w : World) :
    (if c then debug a w else debug b w) = debug (if c then a else b) w := by
  split <;> rfl

theorem debug_trace (s : String) (w : World) : (debug s w).trace = w.trace ++ [Event.debug s] := rfl
theorem debug_device (s : String) (w : World) : (debug s w).device = w.device := rfl
theorem debug_flag (s : String) (w : World) :
    (debug s w).BLUETOOTH_STORE_REMOTE_ADDRESS = w.BLUETOOTH_STORE_REMOTE_ADDRESS := rfl
theorem delayMs_trace (n : Nat) (w : World) : (delayMs n w).trace = w.trace ++ [Event.delayMs n] := rfl
theorem delayMs_device (n : Nat) (w : World) : (delayMs n w).device = w.device := rfl
theorem delayMs_flag (n : Nat) (w : World) :
    (delayMs n w).BLUETOOTH_STORE_REMOTE_ADDRESS = w.BLUETOOTH_STORE_REMOTE_ADDRESS := rfl
theorem gpio_setDirection_trace (a b : Nat) (d : GpioDirection) (w : World) :
    (gpio_setDirection a b d w).trace = w.trace ++ [Event.gpio_setDirection a b d] := rfl
theorem gpio_setDirection_device (a b : Nat) (d : GpioDirection) (w : World) :
    (gpio_setDirection a b d w).device = w.device := rfl
theorem gpio_setDirection_flag (a b : Nat) (d : GpioDirection) (w : World) :
    (gpio_setDirection a b d w).BLUETOOTH_STORE_REMOTE_ADDRESS =
      w.BLUETOOTH_STORE_REMOTE_ADDRESS := rfl
theorem gpio_setValue_trace (a b : Nat) (v : GpioValue) (w : World) :
    (gpio_setValue a b v w).trace = w.trace ++ [Event.gpio_setValue a b v] := rfl
theorem gpio_setValue_device (a b : Nat) (v : GpioValue) (w : World) :
    (gpio_setValue a b v w).device = w.device := rfl
theorem gpio_setValue_flag (a b : Nat) (v : GpioValue) (w : World) :
    (gpio_setValue a b v w).BLUETOOTH_STORE_REMOTE_ADDRESS =
      w.BLUETOOTH_STORE_REMOTE_ADDRESS := rfl
theorem uart_initializeCommon_trace (w : World) :
    (uart_initializeCommon w).trace = w.trace ++ [Event.uart_initializeCommon] := rfl
theorem uart_initializeCommon_device (w : World) :
    (uart_initializeCommon w).device = w.device := rfl
theorem uart_initializeCommon_flag (w : World) :
    (uart_initializeCommon w).BLUETOOTH_STORE_REMOTE_ADDRESS =
      w.BLUETOOTH_STORE_REMOTE_ADDRESS := rfl
theorem setDeviceId_trace (b : List Char) (w : World) : (setDeviceId b w).trace = w.trace := rfl
theorem setDeviceId_flag (b : List Char) (w : World) :
    (setDeviceId b w).BLUETOOTH_STORE_REMOTE_ADDRESS = w.BLUETOOTH_STORE_REMOTE_ADDRESS := rfl
theorem setDeviceId_baud (b : List Char) (w : World) :
    (setDeviceId b w).device.baudRate = w.device.baudRate := rfl
theorem setDeviceId_deviceId (b : List Char) (w : World) :
    (setDeviceId b w).device.deviceId = b := rfl
theorem setStore_trace (v : Bool) (w : World) : (setStoreRemoteAddress v w).trace = w.trace := rfl
theorem setStore_device (v : Bool) (w : World) :
    (setStoreRemoteAddress v w).device = w.device := rfl
theorem setStore_flag (v : Bool) (w : World) :
    (setStoreRemoteAddress v w).BLUETOOTH_STORE_REMOTE_ADDRESS = v := rfl
theorem clearDeviceId_trace (w : World) : (clearDeviceId w).trace = w.trace := rfl
theorem clearDeviceId_flag (w : World) :
    (clearDeviceId w).BLUETOOTH_STORE_REMOTE_ADDRESS = w.BLUETOOTH_STORE_REMOTE_ADDRESS := rfl
theorem clearDeviceId_baud (w : World) : (clearDeviceId w).device.baudRate = w.device.baudRate := rfl
theorem clearDeviceId_deviceId (w : World) :
    (clearDeviceId w).device.deviceId = w.device.deviceId.set 0 NUL := rfl

theorem at_commander_fst (m : Module) (c : AtCall) (w : World) :
    (at_commander m c w).1 = m (atCalls w.trace) c := rfl
theorem at_commander_trace (m : Module) (c : AtCall) (w : World) :
    (at_commander m c w).2.trace = w.trace ++ [Event.exchange c (m (atCalls w.trace) c)] := rfl
theorem at_commander_device (m : Module) (c : AtCall) (w : World) :
    (at_commander m c w).2.device = w.device := rfl
theorem at_commander_flag (m : Module) (c : AtCall) (w : World) :
    (at_commander m c w).2.BLUETOOTH_STORE_REMOTE_ADDRESS = w.BLUETOOTH_STORE_REMOTE_ADDRESS := rfl

theorem trace_ite (c : Prop) [Decidable c] (a b : World) :
    (if c then a else b).trace = if c then a.trace else b.trace := by split <;> rfl
theorem device_ite (c : Prop) [Decidable c] (a b : World) :
    (if c then a else b).device = if c then a.device else b.device := by split <;> rfl
theorem flag_ite (c : Prop) [Decidable c] (a b : World) :
    (if c then a else b).BLUETOOTH_STORE_REMOTE_ADDRESS =
      if c then a.BLUETOOTH_STORE_REMOTE_ADDRESS else b.BLUETOOTH_STORE_REMOTE_ADDRESS := by
  split <;> rfl
theorem baudRate_ite (c : Prop) [Decidable c] (a b : UartDevice) :
    (if c then a else b).baudRate = if c then a.baudRate else b.baudRate := by split <;> rfl
theorem deviceId_ite (c : Prop) [Decidable c] (a b : UartDevice) :
    (if c then a else b).deviceId = if c then a.deviceId else b.deviceId := by split <;> rfl
theorem fst_ite {α β : Type} (c : Prop) [Decidable c] (a b : α × β) :
    (if c then a else b).1 = if c then a.1 else b.1 := by split <;> rfl
theorem snd_ite {α β : Type} (c : Prop) [Decidable c] (a b : α × β) :
    (if c then a else b).2 = if c then a.2 else b.2 := by split <;> rfl
theorem append_ite_factor {α : Type} (c : Prop) [Decidable c] (l a b : List α) :
    (if c then l ++ a else l ++ b) = l ++ if c then a else b := by split <;> rfl
theorem append_ite_factor_left {α : Type} (c : Prop) [Decidable c] (l b : List α) :
    (if c then l else l ++ b) = l ++ if c then [] else b := by split <;> simp
theorem atCalls_ite (c : Prop) [Decidable c] (a b : List Event) :
    atCalls (if c then a else b) = if c then atCalls a else atCalls b := by split <;> rfl
theorem exchanges_ite (c : Prop) [Decidable c] (a b : List Event) :
    exchanges (if c then a else b) = if c then exchanges a else exchanges b := by split <;> rfl
theorem ite_debug_clear_trace (c : Prop) [Decidable c] (a b : String) (w : World) :
    (if c then debug a w else clearDeviceId (debug b w)).trace =
      w.trace ++ [Event.debug (if c then a else b)] := by
  split <;> rfl
theorem ite_debug_clear_flag (c : Prop) [Decidable c] (a b : String) (w : World) :
    (if c then debug a w else clearDeviceId (debug b w)).BLUETOOTH_STORE_REMOTE_ADDRESS =
      w.BLUETOOTH_STORE_REMOTE_ADDRESS := by
  split <;> rfl
theorem ite_debug_clear_baud (c : Prop) [Decidable c] (a b : String) (w : World) :
    (if c then debug a w else clearDeviceId (debug b w)).device.baudRate =
      w.device.baudRate := by
  split <;> rfl
theorem ite_debug_clear_deviceId (c : Prop) [Decidable c] (a b : String) (w : World) :
    (if c then debug a w else clearDeviceId (debug b w)).device.deviceId =
      if c then w.device.deviceId else w.device.deviceId.set 0 NUL := by
  split <;> rfl

theorem setStatus_eq (p : Platform) (e : Bool) (w : World) :
    setStatus p e w =
      if p.BLUETOOTH_ENABLE_SUPPORT = true then
        gpio_setValue p.BLUETOOTH_ENABLE_PORT p.BLUETOOTH_ENABLE_PIN
          (if (if p.BLUETOOTH_ENABLE_PIN_POLARITY = true then e else !e) = true then
            GpioValue.GPIO_VALUE_HIGH else GpioValue.GPIO_VALUE_LOW)
          (debug "Turning Bluetooth %s" w)
      else w := rfl

theorem initializeBluetooth_eq (p : Platform) (m : Module) (w : World) :
    initializeBluetooth p m w =
      if p.BLUETOOTH_SUPPORT = true then
        debug "Done." (uart_initializeCommon (configureExternalModule m (beforeConfigure p w)))
      else w := rfl

/-! From here on the collaborators are used through the equations above only. -/

attribute [irreducible] emit debug delayMs gpio_setDirection gpio_setValue uart_initializeCommon
  at_commander setDeviceId setStoreRemoteAddress clearDeviceId

/-- The exchanges of a run of `configureExternalModule` are the replay of
`callsIssued` against the module. -/
theorem exchanges_configure (m : Module) (w : World) :
    exchanges (issued w (configureExternalModule m w)) =
      replay m (atCalls w.trace)
        (callsIssued m (atCalls w.trace) w.device.baudRate w.device.deviceId.length) := by
  simp only [configureExternalModule, selectMode, ite_debug]
  simp only [issued, at_commander_set_baud, at_commander_set_name, at_commander_get_device_id,
    at_commander_set_configuration_timer, at_commander_set, at_commander_get,
    at_commander_reboot, at_commander_fst, at_commander_trace, at_commander_device,
    at_commander_flag, delayMs_trace, delayMs_device, delayMs_flag, debug_trace, debug_device,
    debug_flag, clearDeviceId_trace, clearDeviceId_flag, clearDeviceId_baud,
    clearDeviceId_deviceId, setDeviceId_trace, setDeviceId_flag, setDeviceId_baud,
    setDeviceId_deviceId, setStore_trace, setStore_device, setStore_flag,
    ite_debug_clear_trace, ite_debug_clear_flag, ite_debug_clear_baud, ite_debug_clear_deviceId,
    atCalls_append, atCalls, trace_ite, device_ite, flag_ite, fst_ite, snd_ite,
    append_ite_factor, append_ite_factor_left, atCalls_ite, List.append_assoc, List.cons_append,
    List.nil_append, List.append_nil, ite_self, List.drop_left, exchanges_ite, exchanges_append,
    exchanges]
  split_ifs <;>
  simp_all [callsIssued, replay, settingsCalls, versionCall, remoteCall, BLUETOOTH_SLAVE_MODE,
    BLUETOOTH_AUTO_MASTER_MODE, BLUETOOTH_PAIRING_MODE]

theorem atCalls_configure (m : Module) (w : World) :
    atCalls (issued w (configureExternalModule m w)) =
      callsIssued m (atCalls w.trace) w.device.baudRate w.device.deviceId.length := by
  rw [atCalls_eq_map, exchanges_configure, map_fst_replay]

/-- A run of `configureExternalModule` only appends to the trace. -/
theorem trace_configure (m : Module) (w : World) :
    (configureExternalModule m w).trace = w.trace ++ issued w (configureExternalModule m w) := by
  simp only [configureExternalModule, selectMode, ite_debug]
  simp only [issued, at_commander_set_baud, at_commander_set_name, at_commander_get_device_id,
    at_commander_set_configuration_timer, at_commander_set, at_commander_get,
    at_commander_reboot, at_commander_fst, at_commander_trace, at_commander_device,
    at_commander_flag, delayMs_trace, delayMs_device, delayMs_flag, debug_trace, debug_device,
    debug_flag, clearDeviceId_trace, clearDeviceId_flag, clearDeviceId_baud,
    clearDeviceId_deviceId, setDeviceId_trace, setDeviceId_flag, setDeviceId_baud,
    setDeviceId_deviceId, setStore_trace, setStore_device, setStore_flag,
    ite_debug_clear_trace, ite_debug_clear_flag, ite_debug_clear_baud, ite_debug_clear_deviceId,
    atCalls_append, atCalls, trace_ite, device_ite, flag_ite, fst_ite, snd_ite,
    append_ite_factor, append_ite_factor_left, atCalls_ite, List.append_assoc, List.cons_append,
    List.nil_append, List.append_nil, ite_self, List.drop_left]

/-- The stored-remote-address flag after a run: it is written only when the
remote-address query was issued and answered. -/
theorem flag_configure (m : Module) (w : World) :
    (configureExternalModule m w).BLUETOOTH_STORE_REMOTE_ADDRESS =
      if (m (atCalls w.trace) (AtCall.set_baud w.device.baudRate)).ret = 0 then
        w.BLUETOOTH_STORE_REMOTE_ADDRESS
      else if (m (atCalls w.trace ++ settingsCalls w.device.baudRate w.device.deviceId.length)
          versionCall).ret = 0 then w.BLUETOOTH_STORE_REMOTE_ADDRESS
      else if (strstr (m (atCalls w.trace ++
          settingsCalls w.device.baudRate w.device.deviceId.length) versionCall).buffer
          "6.".toList).isSome then w.BLUETOOTH_STORE_REMOTE_ADDRESS
      else if (m (atCalls w.trace ++ settingsCalls w.device.baudRate w.device.deviceId.length ++
          [versionCall]) remoteCall).ret = 0 then w.BLUETOOTH_STORE_REMOTE_ADDRESS
      else decide (strncmp (m (atCalls w.trace ++
          settingsCalls w.device.baudRate w.device.deviceId.length ++
          [versionCall]) remoteCall).buffer "NOT SET".toList 64 ≠ 0) := by
  simp only [configureExternalModule, selectMode, ite_debug]
  simp only [at_commander_set_baud, at_commander_set_name, at_commander_get_device_id,
    at_commander_set_configuration_timer, at_commander_set, at_commander_get,
    at_commander_reboot, at_commander_fst, at_commander_trace, at_commander_device,
    at_commander_flag, delayMs_trace, delayMs_device, delayMs_flag, debug_trace, debug_device,
    debug_flag, clearDeviceId_trace, clearDeviceId_flag, clearDeviceId_baud,
    clearDeviceId_deviceId, setDeviceId_trace, setDeviceId_flag, setDeviceId_baud,
    setDeviceId_deviceId, setStore_trace, setStore_device, setStore_flag,
    ite_debug_clear_trace, ite_debug_clear_flag, ite_debug_clear_baud, ite_debug_clear_deviceId,
    atCalls_append, atCalls, trace_ite, device_ite, flag_ite, fst_ite, snd_ite,
    append_ite_factor, append_ite_factor_left, atCalls_ite, List.append_assoc, List.cons_append,
    List.nil_append, List.append_nil, ite_self]
  split_ifs <;> simp_all [settingsCalls, versionCall, remoteCall]

/-- The device-id buffer after a run. -/
theorem deviceId_configure (m : Module) (w : World) :
    (configureExternalModule m w).device.deviceId =
      if (m (atCalls w.trace) (AtCall.set_baud w.device.baudRate)).ret = 0 then
        w.device.deviceId
      else if 0 < (m (atCalls w.trace ++ [AtCall.set_baud w.device.baudRate,
          AtCall.set_name BLUETOOTH_DEVICE_NAME true])
          (AtCall.get_device_id w.device.deviceId.length)).ret then
        (m (atCalls w.trace ++ [AtCall.set_baud w.device.baudRate,
          AtCall.set_name BLUETOOTH_DEVICE_NAME true])
          (AtCall.get_device_id w.device.deviceId.length)).buffer
      else
        (m (atCalls w.trace ++ [AtCall.set_baud w.device.baudRate,
          AtCall.set_name BLUETOOTH_DEVICE_NAME true])
          (AtCall.get_device_id w.device.deviceId.length)).buffer.set 0 NUL := by
  simp only [configureExternalModule, selectMode, ite_debug]
  simp only [at_commander_set_baud, at_commander_set_name, at_commander_get_device_id,
    at_commander_set_configuration_timer, at_commander_set, at_commander_get,
    at_commander_reboot, at_commander_fst, at_commander_trace, at_commander_device,
    at_commander_flag, delayMs_trace, delayMs_device, delayMs_flag, debug_trace, debug_device,
    debug_flag, clearDeviceId_trace, clearDeviceId_flag, clearDeviceId_baud,
    clearDeviceId_deviceId, setDeviceId_trace, setDeviceId_flag, setDeviceId_baud,
    setDeviceId_deviceId, setStore_trace, setStore_device, setStore_flag,
    ite_debug_clear_trace, ite_debug_clear_flag, ite_debug_clear_baud, ite_debug_clear_deviceId,
    atCalls_append, atCalls, trace_ite, device_ite, flag_ite, fst_ite, snd_ite, baudRate_ite,
    deviceId_ite, List.append_assoc, List.cons_append,
    List.nil_append, List.append_nil, ite_self]
  split_ifs <;> simp_all

theorem beforeConfigure_trace (p : Platform) (w : World) :
    (beforeConfigure p w).trace =
      w.trace ++ (Event.debug "Initializing Bluetooth..." ::
        if p.BLUETOOTH_ENABLE_SUPPORT = true then
          [Event.gpio_setDirection p.BLUETOOTH_ENABLE_PORT p.BLUETOOTH_ENABLE_PIN
              GpioDirection.GPIO_DIRECTION_OUTPUT,
            Event.debug "Turning Bluetooth %s",
            Event.gpio_setValue p.BLUETOOTH_ENABLE_PORT p.BLUETOOTH_ENABLE_PIN
              (if p.BLUETOOTH_ENABLE_PIN_POLARITY = true then GpioValue.GPIO_VALUE_HIGH
                else GpioValue.GPIO_VALUE_LOW)]
        else []) := by
  unfold beforeConfigure
  by_cases he : p.BLUETOOTH_ENABLE_SUPPORT = true <;>
    by_cases hp : p.BLUETOOTH_ENABLE_PIN_POLARITY = true <;>
    simp [setStatus_eq, he, hp, setDeviceId_trace, debug_trace, gpio_setDirection_trace,
      gpio_setValue_trace]

theorem beforeConfigure_atCalls (p : Platform) (w : World) :
    atCalls (beforeConfigure p w).trace = atCalls w.trace := by
  rw [beforeConfigure_trace]
  by_cases he : p.BLUETOOTH_ENABLE_SUPPORT = true <;> simp [he, atCalls_append, atCalls]

theorem beforeConfigure_baud (p : Platform) (w : World) :
    (beforeConfigure p w).device.baudRate = w.device.baudRate := by
  unfold beforeConfigure
  by_cases he : p.BLUETOOTH_ENABLE_SUPPORT = true <;>
    simp [setStatus_eq, he, setDeviceId_baud, debug_device, gpio_setDirection_device,
      gpio_setValue_device]

theorem beforeConfigure_deviceId (p : Platform) (w : World) :
    (beforeConfigure p w).device.deviceId = strcpy w.device.deviceId "Unknown".toList := by
  unfold beforeConfigure
  by_cases he : p.BLUETOOTH_ENABLE_SUPPORT = true <;>
    simp [setStatus_eq, he, setDeviceId_deviceId, debug_device, gpio_setDirection_device,
      gpio_setValue_device]

/-- The trace of `initializeBluetooth` under `BLUETOOTH_SUPPORT`: the power-on
events, then the run of `configureExternalModule`, then the UART re-init. -/
theorem issued_init (p : Platform) (m : Module) (w : World)
    (hs : p.BLUETOOTH_SUPPORT = true) :
    issued w (initializeBluetooth p m w) =
      issued w (beforeConfigure p w) ++
        (issued (beforeConfigure p w) (configureExternalModule m (beforeConfigure p w)) ++
          [Event.uart_initializeCommon, Event.debug "Done."]) := by
  apply issued_append
  rw [initializeBluetooth_eq, if_pos hs, debug_trace, uart_initializeCommon_trace,
    trace_configure, beforeConfigure_trace, issued_append _ _ _ (beforeConfigure_trace p w)]
  simp [List.append_assoc]

theorem exchanges_issued_beforeConfigure (p : Platform) (w : World) :
    exchanges (issued w (beforeConfigure p w)) = [] := by
  rw [issued_append _ _ _ (beforeConfigure_trace p w)]
  by_cases he : p.BLUETOOTH_ENABLE_SUPPORT = true <;> simp [he, exchanges]

theorem exchanges_init (p : Platform) (m : Module) (w : World) :
    exchanges (issued w (initializeBluetooth p m w)) =
      if p.BLUETOOTH_SUPPORT = true then
        replay m (atCalls w.trace)
          (callsIssued m (atCalls w.trace) w.device.baudRate
            (strcpy w.device.deviceId "Unknown".toList).length)
      else [] := by
  by_cases hs : p.BLUETOOTH_SUPPORT = true
  · rw [issued_init p m w hs, if_pos hs]
    simp [exchanges_append, exchanges_issued_beforeConfigure, exchanges_configure,
      beforeConfigure_atCalls, beforeConfigure_baud, beforeConfigure_deviceId, exchanges]
  · rw [initializeBluetooth_eq, if_neg hs, if_neg hs]
    simp [issued, exchanges]

theorem atCalls_init (p : Platform) (m : Module) (w : World) :
    atCalls (issued w (initializeBluetooth p m w)) =
      if p.BLUETOOTH_SUPPORT = true then
        callsIssued m (atCalls w.trace) w.device.baudRate
          (strcpy w.device.deviceId "Unknown".toList).length
      else [] := by
  rw [atCalls_eq_map, exchanges_init]
  split <;> simp [map_fst_replay]

theorem deviceId_init (p : Platform) (m : Module) (w : World)
    (hs : p.BLUETOOTH_SUPPORT = true) :
    (initializeBluetooth p m w).device.deviceId =
      if (m (atCalls w.trace) (AtCall.set_baud w.device.baudRate)).ret = 0 then
        strcpy w.device.deviceId "Unknown".toList
      else if 0 < (m (atCalls w.trace ++ [AtCall.set_baud w.device.baudRate,
          AtCall.set_name BLUETOOTH_DEVICE_NAME true])
          (AtCall.get_device_id (strcpy w.device.deviceId "Unknown".toList).length)).ret then
        (m (atCalls w.trace ++ [AtCall.set_baud w.device.baudRate,
          AtCall.set_name BLUETOOTH_DEVICE_NAME true])
          (AtCall.get_device_id (strcpy w.device.deviceId "Unknown".toList).length)).buffer
      else
        (m (atCalls w.trace ++ [AtCall.set_baud w.device.baudRate,
          AtCall.set_name BLUETOOTH_DEVICE_NAME true])
          (AtCall.get_device_id
            (strcpy w.device.deviceId "Unknown".toList).length)).buffer.set 0 NUL := by
  rw [initializeBluetooth_eq, if_pos hs, debug_device, uart_initializeCommon_device,
    deviceId_configure, beforeConfigure_atCalls, beforeConfigure_baud, beforeConfigure_deviceId]

end worlds

section inversion

theorem version_ne_remote : firmwareVersionCommand ≠ remoteAddressQuery := by decide
theorem remote_ne_version : remoteAddressQuery ≠ firmwareVersionCommand := by decide
theorem inquiry_ne_paging : inquiryCommand ≠ pagingCommand := by decide
theorem inquiry_ne_mode : inquiryCommand ≠ modeCommand := by decide
theorem paging_ne_mode : pagingCommand ≠ modeCommand := by decide
theorem inquiry_format : inquiryCommand.request_format ≠ "SM,%d\r" := by decide
theorem paging_format : pagingCommand.request_format ≠ "SM,%d\r" := by decide
theorem mode_format : modeCommand.request_format = "SM,%d\r" := rfl
theorem version_format : firmwareVersionCommand.request_format ≠ "GR\r" := by decide
theorem remote_format : remoteAddressQuery.request_format = "GR\r" := rfl

variable (m : Module) (h : List AtCall) (b : Int) (n : Nat)

theorem mem_replay_baud (r : Reply) :
    (AtCall.set_baud b, r) ∈ replay m h (callsIssued m h b n) ↔ r = m h (AtCall.set_baud b) := by
  unfold callsIssued
  split_ifs <;> simp [replay, settingsCalls, versionCall, remoteCall]

theorem mem_replay_version (r : Reply) :
    (AtCall.get firmwareVersionCommand 64, r) ∈ replay m h (callsIssued m h b n) ↔
      (m h (AtCall.set_baud b)).ret ≠ 0 ∧ r = m (h ++ settingsCalls b n) versionCall := by
  unfold callsIssued
  split_ifs <;>
    simp_all [replay, settingsCalls, versionCall, remoteCall, version_ne_remote, remote_ne_version]

theorem mem_replay_remote (r : Reply) :
    (AtCall.get remoteAddressQuery 64, r) ∈ replay m h (callsIssued m h b n) ↔
      (m h (AtCall.set_baud b)).ret ≠ 0 ∧ (m (h ++ settingsCalls b n) versionCall).ret ≠ 0 ∧
        (strstr (m (h ++ settingsCalls b n) versionCall).buffer "6.".toList).isSome = false ∧
        r = m (h ++ settingsCalls b n ++ [versionCall]) remoteCall := by
  unfold callsIssued
  split_ifs <;>
    simp_all [replay, settingsCalls, versionCall, remoteCall, version_ne_remote, remote_ne_version]

theorem mem_replay_deviceId (k : Nat) (r : Reply) :
    (AtCall.get_device_id k, r) ∈ replay m h (callsIssued m h b n) ↔
      (m h (AtCall.set_baud b)).ret ≠ 0 ∧ k = n ∧
        r = m (h ++ [AtCall.set_baud b, AtCall.set_name BLUETOOTH_DEVICE_NAME true])
          (AtCall.get_device_id n) := by
  unfold callsIssued
  split_ifs <;>
    simp_all [replay, settingsCalls, versionCall, remoteCall]

end inversion

/-! ## The claims -/

/-- C1: when the baud-rate-set exchange fails, `configureExternalModule` issues
no other AT exchange at all, and after `initialize` the device id is exactly
the sentinel "Unknown". -/
theorem C1_baud_failure_abandons_sequence (p : Platform) (m : Module) (w : World) (r : Reply)
    (hr : r.ret = 0) :
    ((AtCall.set_baud w.device.baudRate, r) ∈
        exchanges (issued w (configureExternalModule m w)) →
      atCalls (issued w (configureExternalModule m w)) = [AtCall.set_baud w.device.baudRate]) ∧
    ((AtCall.set_baud w.device.baudRate, r) ∈
        exchanges (issued w (initializeBluetooth p m w)) →
      atCalls (issued w (initializeBluetooth p m w)) = [AtCall.set_baud w.device.baudRate] ∧
        cstr (initializeBluetooth p m w).device.deviceId = "Unknown".toList) := by
  constructor
  · intro hmem
    rw [exchanges_configure, mem_replay_baud] at hmem
    subst hmem
    rw [atCalls_configure]
    simp [callsIssued, hr]
  · intro hmem
    rw [exchanges_init] at hmem
    by_cases hs : p.BLUETOOTH_SUPPORT = true
    · rw [if_pos hs, mem_replay_baud] at hmem
      subst hmem
      rw [atCalls_init, if_pos hs, deviceId_init p m w hs, if_pos hr, cstr_strcpy]
      constructor
      · simp [callsIssued, hr]
      · decide
    · rw [if_neg hs] at hmem
      simp at hmem

/-- C1 witness: a module that answers nothing, on the active-high platform. -/
theorem C1_baud_failure_abandons_sequence_witness :
    (silentModule [] (AtCall.set_baud 9600)).ret = 0 ∧
    (AtCall.set_baud 9600, silentModule [] (AtCall.set_baud 9600)) ∈
      exchanges (issued powerOn (configureExternalModule silentModule powerOn)) ∧
    (AtCall.set_baud 9600, silentModule [] (AtCall.set_baud 9600)) ∈
      exchanges (issued powerOn (initializeBluetooth activeHighPlatform silentModule powerOn)) ∧
    atCalls (issued powerOn (configureExternalModule silentModule powerOn)) =
      [AtCall.set_baud 9600] ∧
    atCalls (issued powerOn (initializeBluetooth activeHighPlatform silentModule powerOn)) =
      [AtCall.set_baud 9600] ∧
    cstr (initializeBluetooth activeHighPlatform silentModule powerOn).device.deviceId =
      "Unknown".toList :=
  have h := C1_baud_failure_abandons_sequence activeHighPlatform silentModule powerOn
    (silentModule [] (AtCall.set_baud 9600)) rfl
  have h1 : (AtCall.set_baud 9600, silentModule [] (AtCall.set_baud 9600)) ∈
      exchanges (issued powerOn (configureExternalModule silentModule powerOn)) := by
    rw [exchanges_configure]; exact (mem_replay_baud _ _ _ _ _).mpr rfl
  have h2 : (AtCall.set_baud 9600, silentModule [] (AtCall.set_baud 9600)) ∈
      exchanges (issued powerOn (initializeBluetooth activeHighPlatform silentModule powerOn)) := by
    rw [exchanges_init, if_pos (show activeHighPlatform.BLUETOOTH_SUPPORT = true from rfl)]
    exact (mem_replay_baud _ _ _ _ _).mpr rfl
  ⟨rfl, h1, h2, h.1 h1, (h.2 h2).1, (h.2 h2).2⟩

/-- C2: when the baud-rate-set exchange succeeds, the reboot command is issued
exactly once and is the last AT exchange, whatever the other outcomes. -/
theorem C2_reboot_once_and_last (m : Module) (w : World) (r : Reply)
    (hb : (AtCall.set_baud w.device.baudRate, r) ∈
      exchanges (issued w (configureExternalModule m w)))
    (hr : r.ret ≠ 0) :
    (atCalls (issued w (configureExternalModule m w))).count AtCall.reboot = 1 ∧
      (atCalls (issued w (configureExternalModule m w))).getLast? = some AtCall.reboot := by
  rw [exchanges_configure, mem_replay_baud] at hb
  subst hb
  rw [atCalls_configure]
  unfold callsIssued
  rw [if_neg hr]
  split_ifs <;> simp [settingsCalls, versionCall, remoteCall]

/-- C2 witness: a module on 4.77 firmware whose remote-address query fails. -/
theorem C2_reboot_once_and_last_witness :
    (AtCall.set_baud 9600, respondingModule "v4.77" failedReply [] (AtCall.set_baud 9600)) ∈
      exchanges (issued powerOn
        (configureExternalModule (respondingModule "v4.77" failedReply) powerOn)) ∧
    (respondingModule "v4.77" failedReply [] (AtCall.set_baud 9600)).ret ≠ 0 ∧
    (atCalls (issued powerOn
      (configureExternalModule (respondingModule "v4.77" failedReply) powerOn))).count
        AtCall.reboot = 1 ∧
    (atCalls (issued powerOn
      (configureExternalModule (respondingModule "v4.77" failedReply) powerOn))).getLast? =
        some AtCall.reboot :=
  have h1 : (AtCall.set_baud 9600,
      respondingModule "v4.77" failedReply [] (AtCall.set_baud 9600)) ∈
      exchanges (issued powerOn
        (configureExternalModule (respondingModule "v4.77" failedReply) powerOn)) := by
    rw [exchanges_configure]; exact (mem_replay_baud _ _ _ _ _).mpr rfl
  have h2 : (respondingModule "v4.77" failedReply [] (AtCall.set_baud 9600)).ret ≠ 0 := by
    decide
  ⟨h1, h2, C2_reboot_once_and_last _ _ _ h1 h2⟩

/-- C3: when the baud-rate-set and the firmware-version query succeed and the
version text contains "6.", the mode-set command carries the Pairing code 6,
the stored-remote-address query is never issued, and the same holds for every
module that differs only in its answer to that query and for every prior
value of the stored-remote-address flag. -/
theorem C3_firmware6_selects_pairing (m : Module) (w : World) (rb rv : Reply)
    (hb : (AtCall.set_baud w.device.baudRate, rb) ∈
      exchanges (issued w (configureExternalModule m w)))
    (hbr : rb.ret ≠ 0)
    (hv : (AtCall.get firmwareVersionCommand 64, rv) ∈
      exchanges (issued w (configureExternalModule m w)))
    (hvr : rv.ret ≠ 0)
    (h6 : "6.".toList <:+: cstr rv.buffer) :
    modeSetArgs (atCalls (issued w (configureExternalModule m w))) = [AtArg.int 6] ∧
    (∀ c ∈ atCalls (issued w (configureExternalModule m w)), isRemoteAddressQuery c = false) ∧
    ∀ (m2 : Module) (f : Bool),
      (∀ h c, isRemoteAddressQuery c = false → m2 h c = m h c) →
      modeSetArgs (atCalls (issued { w with BLUETOOTH_STORE_REMOTE_ADDRESS := f }
        (configureExternalModule m2 { w with BLUETOOTH_STORE_REMOTE_ADDRESS := f }))) =
          [AtArg.int 6] ∧
      ∀ c ∈ atCalls (issued { w with BLUETOOTH_STORE_REMOTE_ADDRESS := f }
        (configureExternalModule m2 { w with BLUETOOTH_STORE_REMOTE_ADDRESS := f })),
        isRemoteAddressQuery c = false := by
  rw [exchanges_configure, mem_replay_baud] at hb
  rw [exchanges_configure, mem_replay_version] at hv
  subst hb
  obtain ⟨-, rfl⟩ := hv
  have hs : (strstr (m (atCalls w.trace ++
      settingsCalls w.device.baudRate w.device.deviceId.length) versionCall).buffer
      "6.".toList).isSome = true := by
    rw [strstr_isSome]
    exact (cstr_of_not_mem "6.".toList (by decide)).symm ▸ h6
  have key : ∀ (m2 : Module), (∀ h c, isRemoteAddressQuery c = false → m2 h c = m h c) →
      callsIssued m2 (atCalls w.trace) w.device.baudRate w.device.deviceId.length =
        settingsCalls w.device.baudRate w.device.deviceId.length ++
          [versionCall, AtCall.set modeCommand (AtArg.int 6), AtCall.reboot] := by
    intro m2 hm
    have e1 := hm (atCalls w.trace) (AtCall.set_baud w.device.baudRate) rfl
    have e2 := hm (atCalls w.trace ++ settingsCalls w.device.baudRate w.device.deviceId.length)
      versionCall (by decide)
    unfold callsIssued
    rw [e1, if_neg hbr, e2, if_neg hvr, if_pos hs]
  have shape : modeSetArgs (settingsCalls w.device.baudRate w.device.deviceId.length ++
        [versionCall, AtCall.set modeCommand (AtArg.int 6), AtCall.reboot]) = [AtArg.int 6] ∧
      ∀ c ∈ settingsCalls w.device.baudRate w.device.deviceId.length ++
        [versionCall, AtCall.set modeCommand (AtArg.int 6), AtCall.reboot],
        isRemoteAddressQuery c = false := by
    constructor
    · simp [settingsCalls, versionCall, modeSetArgs, inquiry_format, paging_format, mode_format]
    · simp [settingsCalls, versionCall, isRemoteAddressQuery, version_format]
  refine ⟨?_, ?_, ?_⟩
  · rw [atCalls_configure, key m (fun _ _ _ => rfl)]
    exact shape.1
  · rw [atCalls_configure, key m (fun _ _ _ => rfl)]
    exact shape.2
  · intro m2 f hm
    rw [atCalls_configure]
    exact (key m2 hm).symm ▸ shape

/-- C3 witness: firmware "v6.15". -/
theorem C3_firmware6_selects_pairing_witness :
    modeSetArgs (atCalls (issued powerOn
      (configureExternalModule (respondingModule "v6.15" failedReply) powerOn))) =
        [AtArg.int 6] :=
  have h1 : (AtCall.set_baud powerOn.device.baudRate,
      respondingModule "v6.15" failedReply [] (AtCall.set_baud 9600)) ∈
      exchanges (issued powerOn
        (configureExternalModule (respondingModule "v6.15" failedReply) powerOn)) := by
    rw [exchanges_configure]; exact (mem_replay_baud _ _ _ _ _).mpr rfl
  have h2 : (AtCall.get firmwareVersionCommand 64, textReply "v6.15") ∈
      exchanges (issued powerOn
        (configureExternalModule (respondingModule "v6.15" failedReply) powerOn)) := by
    rw [exchanges_configure]; exact (mem_replay_version _ _ _ _ _).mpr ⟨by decide, rfl⟩
  (C3_firmware6_selects_pairing (respondingModule "v6.15" failedReply) powerOn _ _ h1
    (by decide) h2 (by decide) (by decide)).1

/-- C4: on firmware whose version text does not contain "6.", a successful
stored-remote-address query that returns exactly "NOT SET" gives the Slave
code 0, and one that returns any other text gives the Auto-Master code 3. -/
theorem C4_remote_address_selects_mode (m : Module) (w : World) (rb rv ra : Reply)
    (hb : (AtCall.set_baud w.device.baudRate, rb) ∈
      exchanges (issued w (configureExternalModule m w)))
    (hbr : rb.ret ≠ 0)
    (hv : (AtCall.get firmwareVersionCommand 64, rv) ∈
      exchanges (issued w (configureExternalModule m w)))
    (hvr : rv.ret ≠ 0)
    (h6 : ¬ "6.".toList <:+: cstr rv.buffer)
    (ha : (AtCall.get remoteAddressQuery 64, ra) ∈
      exchanges (issued w (configureExternalModule m w)))
    (har : ra.ret ≠ 0) :
    (cstr ra.buffer = "NOT SET".toList →
      modeSetArgs (atCalls (issued w (configureExternalModule m w))) = [AtArg.int 0]) ∧
    (cstr ra.buffer ≠ "NOT SET".toList →
      modeSetArgs (atCalls (issued w (configureExternalModule m w))) = [AtArg.int 3]) := by
  rw [exchanges_configure, mem_replay_baud] at hb
  rw [exchanges_configure, mem_replay_version] at hv
  rw [exchanges_configure, mem_replay_remote] at ha
  subst hb
  obtain ⟨-, rfl⟩ := hv
  obtain ⟨-, -, -, rfl⟩ := ha
  have hs : ¬ (strstr (m (atCalls w.trace ++
      settingsCalls w.device.baudRate w.device.deviceId.length) versionCall).buffer
      "6.".toList).isSome = true := by
    rw [strstr_isSome, cstr_of_not_mem "6.".toList (by decide)]
    exact h6
  have hcmp := strncmp_eq_zero "NOT SET".toList (by decide)
    (m (atCalls w.trace ++ settingsCalls w.device.baudRate w.device.deviceId.length ++
      [versionCall]) remoteCall).buffer 64 (by decide)
  rw [atCalls_configure]
  unfold callsIssued
  rw [if_neg hbr, if_neg hvr, if_neg hs, if_neg har]
  constructor
  · intro he
    rw [if_neg (not_not.mpr (hcmp.mpr he))]
    simp [settingsCalls, versionCall, remoteCall, modeSetArgs, inquiry_format, paging_format,
      mode_format]
  · intro hne
    rw [if_pos (fun e => hne (hcmp.mp e))]
    simp [settingsCalls, versionCall, remoteCall, modeSetArgs, inquiry_format, paging_format,
      mode_format]

/-- C4 witness: firmware "v4.77" and the stored address "00:11:22:33:44:55";
the same with the answers "NOT SET" and "NOT SET" followed by a blank. -/
theorem C4_remote_address_selects_mode_witness :
    cstr (textReply "00:11:22:33:44:55").buffer ≠ "NOT SET".toList ∧
    modeSetArgs (atCalls (issued powerOn (configureExternalModule
      (respondingModule "v4.77" (textReply "00:11:22:33:44:55")) powerOn))) = [AtArg.int 3] ∧
    modeSetArgs (atCalls (issued powerOn (configureExternalModule
      (respondingModule "v4.77" (textReply "NOT SET")) powerOn))) = [AtArg.int 0] ∧
    modeSetArgs (atCalls (issued powerOn (configureExternalModule
      (respondingModule "v4.77" (textReply "NOT SET ")) powerOn))) = [AtArg.int 3] :=
  have run : ∀ s : String, (textReply s).ret ≠ 0 →
      (cstr (textReply s).buffer = "NOT SET".toList →
        modeSetArgs (atCalls (issued powerOn (configureExternalModule
          (respondingModule "v4.77" (textReply s)) powerOn))) = [AtArg.int 0]) ∧
      (cstr (textReply s).buffer ≠ "NOT SET".toList →
        modeSetArgs (atCalls (issued powerOn (configureExternalModule
          (respondingModule "v4.77" (textReply s)) powerOn))) = [AtArg.int 3]) := fun s hs =>
    have h1 : (AtCall.set_baud powerOn.device.baudRate,
        respondingModule "v4.77" (textReply s) [] (AtCall.set_baud 9600)) ∈
        exchanges (issued powerOn (configureExternalModule
          (respondingModule "v4.77" (textReply s)) powerOn)) := by
      rw [exchanges_configure]; exact (mem_replay_baud _ _ _ _ _).mpr rfl
    have h2 : (AtCall.get firmwareVersionCommand 64, textReply "v4.77") ∈
        exchanges (issued powerOn (configureExternalModule
          (respondingModule "v4.77" (textReply s)) powerOn)) := by
      rw [exchanges_configure]
      exact (mem_replay_version _ _ _ _ _).mpr ⟨Int.one_ne_zero, rfl⟩
    have h3 : (AtCall.get remoteAddressQuery 64, textReply s) ∈
        exchanges (issued powerOn (configureExternalModule
          (respondingModule "v4.77" (textReply s)) powerOn)) := by
      rw [exchanges_configure]
      refine (mem_replay_remote _ _ _ _ _).mpr ⟨Int.one_ne_zero, ?_, ?_, rfl⟩
      · show (textReply "v4.77").ret ≠ 0
        decide
      · show (strstr (textReply "v4.77").buffer "6.".toList).isSome = false
        decide
    C4_remote_address_selects_mode _ powerOn _ _ _ h1 Int.one_ne_zero h2 (by decide)
      (by decide) h3 hs
  ⟨by decide, (run "00:11:22:33:44:55" (by decide)).2 (by decide),
    (run "NOT SET" (by decide)).1 (by decide), (run "NOT SET " (by decide)).2 (by decide)⟩

/-- C5: when the baud-rate-set succeeds, a failed firmware-version query
(return value 0) means no mode-set command, no stored-remote-address query
and an unchanged flag; a successful one means exactly one mode-set command. -/
theorem C5_version_failure_skips_mode (m : Module) (w : World) (rb rv : Reply)
    (hb : (AtCall.set_baud w.device.baudRate, rb) ∈
      exchanges (issued w (configureExternalModule m w)))
    (hbr : rb.ret ≠ 0)
    (hv : (AtCall.get firmwareVersionCommand 64, rv) ∈
      exchanges (issued w (configureExternalModule m w))) :
    (rv.ret = 0 →
      modeSetArgs (atCalls (issued w (configureExternalModule m w))) = [] ∧
      (∀ c ∈ atCalls (issued w (configureExternalModule m w)),
        isRemoteAddressQuery c = false) ∧
      (configureExternalModule m w).BLUETOOTH_STORE_REMOTE_ADDRESS =
        w.BLUETOOTH_STORE_REMOTE_ADDRESS) ∧
    (rv.ret ≠ 0 →
      (modeSetArgs (atCalls (issued w (configureExternalModule m w)))).length = 1) := by
  rw [exchanges_configure, mem_replay_baud] at hb
  rw [exchanges_configure, mem_replay_version] at hv
  subst hb
  obtain ⟨-, rfl⟩ := hv
  rw [atCalls_configure, flag_configure]
  unfold callsIssued
  rw [if_neg hbr, if_neg hbr]
  constructor
  · intro h0
    rw [if_pos h0, if_pos h0]
    simp [settingsCalls, versionCall, modeSetArgs, isRemoteAddressQuery, inquiry_format,
      paging_format, version_format]
  · intro h1
    rw [if_neg h1]
    split_ifs <;>
      simp [settingsCalls, versionCall, remoteCall, modeSetArgs, inquiry_format, paging_format,
        mode_format]

/-- C5 witness: a module that accepts the settings and fails the version query. -/
theorem C5_version_failure_skips_mode_witness :
    (noVersionModule [] (AtCall.set_baud 9600)).ret ≠ 0 ∧
    modeSetArgs (atCalls (issued flagLeftSet
      (configureExternalModule noVersionModule flagLeftSet))) = [] ∧
    (configureExternalModule noVersionModule flagLeftSet).BLUETOOTH_STORE_REMOTE_ADDRESS =
      true :=
  have h1 : (AtCall.set_baud flagLeftSet.device.baudRate,
      noVersionModule [] (AtCall.set_baud 9600)) ∈
      exchanges (issued flagLeftSet (configureExternalModule noVersionModule flagLeftSet)) := by
    rw [exchanges_configure]; exact (mem_replay_baud _ _ _ _ _).mpr rfl
  have h2 : (AtCall.get firmwareVersionCommand 64, failedReply) ∈
      exchanges (issued flagLeftSet (configureExternalModule noVersionModule flagLeftSet)) := by
    rw [exchanges_configure]; exact (mem_replay_version _ _ _ _ _).mpr ⟨by decide, rfl⟩
  have h := (C5_version_failure_skips_mode noVersionModule flagLeftSet _ _ h1 (by decide) h2).1
    rfl
  ⟨by decide, h.1, h.2.2⟩

theorem callsIssued_congr (m m2 : Module) (h : List AtCall) (b : Int) (n : Nat)
    (e1 : m2 h (AtCall.set_baud b) = m h (AtCall.set_baud b))
    (e2 : m2 (h ++ settingsCalls b n) versionCall = m (h ++ settingsCalls b n) versionCall)
    (e3 : m2 (h ++ settingsCalls b n ++ [versionCall]) remoteCall =
      m (h ++ settingsCalls b n ++ [versionCall]) remoteCall) :
    callsIssued m2 h b n = callsIssued m h b n := by
  unfold callsIssued
  rw [e1, e2, e3]

/-- C7: in a run of `initialize` whose baud-rate-set succeeds, a device-id
query that returns a value above 0 leaves in `deviceId` what the query stored
there; one that returns 0 or less leaves the empty string (first byte NUL);
and a module that differs only in its answers to the device-id query is sent
the same AT calls. -/
theorem C7_device_id_step (p : Platform) (m : Module) (w : World) (rb rd : Reply) (k : Nat)
    (hb : (AtCall.set_baud w.device.baudRate, rb) ∈
      exchanges (issued w (initializeBluetooth p m w)))
    (hbr : rb.ret ≠ 0)
    (hd : (AtCall.get_device_id k, rd) ∈ exchanges (issued w (initializeBluetooth p m w))) :
    (0 < rd.ret → (initializeBluetooth p m w).device.deviceId = rd.buffer) ∧
    (rd.ret ≤ 0 →
      (initializeBluetooth p m w).device.deviceId = rd.buffer.set 0 NUL ∧
      cstr (initializeBluetooth p m w).device.deviceId = []) ∧
    ∀ m2 : Module, (∀ h c, (∀ j, c ≠ AtCall.get_device_id j) → m2 h c = m h c) →
      atCalls (issued w (initializeBluetooth p m2 w)) =
        atCalls (issued w (initializeBluetooth p m w)) := by
  have hs : p.BLUETOOTH_SUPPORT = true := by
    by_contra hn
    rw [exchanges_init, if_neg hn] at hb
    simp at hb
  rw [exchanges_init, if_pos hs, mem_replay_baud] at hb
  rw [exchanges_init, if_pos hs, mem_replay_deviceId] at hd
  subst hb
  obtain ⟨-, -, rfl⟩ := hd
  refine ⟨?_, ?_, ?_⟩
  · intro hpos
    rw [deviceId_init p m w hs, if_neg hbr, if_pos hpos]
  · intro hneg
    rw [deviceId_init p m w hs, if_neg hbr, if_neg (not_lt.mpr hneg)]
    exact ⟨rfl, cstr_set_zero _⟩
  · intro m2 hm
    rw [atCalls_init, atCalls_init, if_pos hs, if_pos hs]
    exact callsIssued_congr m m2 _ _ _ (hm _ _ (by simp)) (hm _ _ (by simp [versionCall]))
      (hm _ _ (by simp [remoteCall]))

/-- C7 witness: the device-id query fails and leaves "junk" in the buffer. -/
theorem C7_device_id_step_witness :
    (noDeviceIdModule "v6.15" failedReply "junk" []
      (AtCall.get_device_id 17)).ret ≤ 0 ∧
    (initializeBluetooth plainPlatform (noDeviceIdModule "v6.15" failedReply "junk")
      powerOn).device.deviceId = [NUL, 'u', 'n', 'k'] ∧
    cstr (initializeBluetooth plainPlatform (noDeviceIdModule "v6.15" failedReply "junk")
      powerOn).device.deviceId = [] :=
  have h1 : (AtCall.set_baud powerOn.device.baudRate,
      noDeviceIdModule "v6.15" failedReply "junk" [] (AtCall.set_baud 9600)) ∈
      exchanges (issued powerOn (initializeBluetooth plainPlatform
        (noDeviceIdModule "v6.15" failedReply "junk") powerOn)) := by
    rw [exchanges_init, if_pos (show plainPlatform.BLUETOOTH_SUPPORT = true from rfl)]
    exact (mem_replay_baud _ _ _ _ _).mpr rfl
  have h2 : (AtCall.get_device_id 17,
      noDeviceIdModule "v6.15" failedReply "junk" [] (AtCall.get_device_id 17)) ∈
      exchanges (issued powerOn (initializeBluetooth plainPlatform
        (noDeviceIdModule "v6.15" failedReply "junk") powerOn)) := by
    rw [exchanges_init, if_pos (show plainPlatform.BLUETOOTH_SUPPORT = true from rfl)]
    exact (mem_replay_deviceId _ _ _ _ _ _).mpr ⟨by decide, by decide, rfl⟩
  have h := (C7_device_id_step plainPlatform (noDeviceIdModule "v6.15" failedReply "junk")
    powerOn _ _ 17 h1 (by decide) h2).2.1 (by decide)
  ⟨by decide, h.1, h.2⟩

section replies

variable (m : Module) (h : List AtCall) (b : Int) (n : Nat)

theorem replies_baud :
    ((replay m h (callsIssued m h b n)).filter (fun x => isSetBaud x.1)).map Prod.snd =
      [m h (AtCall.set_baud b)] := by
  unfold callsIssued
  split_ifs <;> simp [replay, settingsCalls, versionCall, remoteCall, isSetBaud]

theorem replies_version :
    ((replay m h (callsIssued m h b n)).filter (fun x => isVersionQuery x.1)).map Prod.snd =
      if (m h (AtCall.set_baud b)).ret = 0 then []
      else [m (h ++ settingsCalls b n) versionCall] := by
  unfold callsIssued
  split_ifs <;>
    simp [replay, settingsCalls, versionCall, remoteCall, isVersionQuery, firmwareVersionCommand,
      remoteAddressQuery]

theorem replies_remote :
    ((replay m h (callsIssued m h b n)).filter
        (fun x => isRemoteAddressQuery x.1)).map Prod.snd =
      if (m h (AtCall.set_baud b)).ret = 0 then []
      else if (m (h ++ settingsCalls b n) versionCall).ret = 0 then []
      else if (strstr (m (h ++ settingsCalls b n) versionCall).buffer "6.".toList).isSome then []
      else [m (h ++ settingsCalls b n ++ [versionCall]) remoteCall] := by
  unfold callsIssued
  split_ifs <;>
    simp [replay, settingsCalls, versionCall, remoteCall, isRemoteAddressQuery,
      firmwareVersionCommand, remoteAddressQuery]

theorem modeSetArgs_callsIssued :
    modeSetArgs (callsIssued m h b n) =
      if (m h (AtCall.set_baud b)).ret = 0 then []
      else if (m (h ++ settingsCalls b n) versionCall).ret = 0 then []
      else if (strstr (m (h ++ settingsCalls b n) versionCall).buffer "6.".toList).isSome then
        [AtArg.int 6]
      else if (m (h ++ settingsCalls b n ++ [versionCall]) remoteCall).ret = 0 then
        [AtArg.int 0]
      else if strncmp (m (h ++ settingsCalls b n ++ [versionCall]) remoteCall).buffer
          "NOT SET".toList 64 ≠ 0 then [AtArg.int 3]
      else [AtArg.int 0] := by
  unfold callsIssued
  split_ifs <;>
    simp [settingsCalls, versionCall, remoteCall, modeSetArgs, inquiry_format, paging_format,
      mode_format]

end replies

/-- C8: two runs of `configureExternalModule` that receive the same replies to
the baud, version and stored-remote-address exchanges send the same mode code,
whatever the flag and the device id were before; and two consecutive runs
against a module that reports a version without "6." and a stored address
other than "NOT SET" both send Auto-Master (3). -/
theorem C8_mode_depends_on_replies_only (m1 m2 : Module) (w1 w2 : World) :
    (repliesTo isSetBaud (issued w1 (configureExternalModule m1 w1)) =
        repliesTo isSetBaud (issued w2 (configureExternalModule m2 w2)) →
      repliesTo isVersionQuery (issued w1 (configureExternalModule m1 w1)) =
        repliesTo isVersionQuery (issued w2 (configureExternalModule m2 w2)) →
      repliesTo isRemoteAddressQuery (issued w1 (configureExternalModule m1 w1)) =
        repliesTo isRemoteAddressQuery (issued w2 (configureExternalModule m2 w2)) →
      modeSetArgs (atCalls (issued w1 (configureExternalModule m1 w1))) =
        modeSetArgs (atCalls (issued w2 (configureExternalModule m2 w2)))) ∧
    ((∀ h b, (m1 h (AtCall.set_baud b)).ret ≠ 0) →
      (∀ h, (m1 h (AtCall.get firmwareVersionCommand 64)).ret ≠ 0 ∧
        ¬ "6.".toList <:+: cstr (m1 h (AtCall.get firmwareVersionCommand 64)).buffer) →
      (∀ h, (m1 h (AtCall.get remoteAddressQuery 64)).ret ≠ 0 ∧
        cstr (m1 h (AtCall.get remoteAddressQuery 64)).buffer ≠ "NOT SET".toList) →
      modeSetArgs (atCalls (issued w1 (configureExternalModule m1 w1))) = [AtArg.int 3] ∧
      modeSetArgs (atCalls (issued (configureExternalModule m1 w1)
        (configureExternalModule m1 (configureExternalModule m1 w1)))) = [AtArg.int 3]) := by
  constructor
  · intro hb hv ha
    simp only [repliesTo, exchanges_configure, replies_baud, replies_version,
      replies_remote] at hb hv ha
    rw [atCalls_configure, atCalls_configure, modeSetArgs_callsIssued, modeSetArgs_callsIssued]
    simp only [List.cons.injEq, and_true] at hb
    rw [← hb] at hv ha ⊢
    by_cases c1 : (m1 (atCalls w1.trace) (AtCall.set_baud w1.device.baudRate)).ret = 0
    · rw [if_pos c1, if_pos c1]
    · rw [if_neg c1, if_neg c1] at hv ha ⊢
      simp only [List.cons.injEq, and_true] at hv
      rw [← hv] at ha ⊢
      by_cases c2 : (m1 (atCalls w1.trace ++
          settingsCalls w1.device.baudRate w1.device.deviceId.length) versionCall).ret = 0
      · rw [if_pos c2, if_pos c2]
      · rw [if_neg c2, if_neg c2] at ha ⊢
        by_cases c3 : (strstr (m1 (atCalls w1.trace ++
            settingsCalls w1.device.baudRate w1.device.deviceId.length) versionCall).buffer
            "6.".toList).isSome = true
        · rw [if_pos c3, if_pos c3]
        · rw [if_neg c3, if_neg c3] at ha ⊢
          simp only [List.cons.injEq, and_true] at ha
          rw [← ha]
  · intro hB hV hR
    have key : ∀ h b n, modeSetArgs (callsIssued m1 h b n) = [AtArg.int 3] := by
      intro h b n
      have h6 : ¬ (strstr (m1 (h ++ settingsCalls b n) versionCall).buffer
          "6.".toList).isSome = true := by
        rw [strstr_isSome, cstr_of_not_mem "6.".toList (by decide)]
        exact (hV _).2
      have hcmp := strncmp_eq_zero "NOT SET".toList (by decide)
        (m1 (h ++ settingsCalls b n ++ [versionCall]) remoteCall).buffer 64 (by decide)
      have hv : (m1 (h ++ settingsCalls b n) versionCall).ret ≠ 0 := (hV _).1
      have hr : (m1 (h ++ settingsCalls b n ++ [versionCall]) remoteCall).ret ≠ 0 := (hR _).1
      rw [modeSetArgs_callsIssued, if_neg (hB h b), if_neg hv, if_neg h6, if_neg hr,
        if_pos (fun e => (hR _).2 (hcmp.mp e))]
    rw [atCalls_configure, atCalls_configure]
    exact ⟨key _ _ _, key _ _ _⟩

/-- C8 witness: a module on "v4.77" with the stored address
"00:11:22:33:44:55": a run from start-up and a run with the flag left `true`
send the same mode, and two consecutive runs both send Auto-Master (3). -/
theorem C8_mode_depends_on_replies_only_witness :
    modeSetArgs (atCalls (issued powerOn (configureExternalModule
      (respondingModule "v4.77" (textReply "00:11:22:33:44:55")) powerOn))) =
    modeSetArgs (atCalls (issued flagLeftSet (configureExternalModule
      (respondingModule "v4.77" (textReply "00:11:22:33:44:55")) flagLeftSet))) ∧
    modeSetArgs (atCalls (issued powerOn (configureExternalModule
      (respondingModule "v4.77" (textReply "00:11:22:33:44:55")) powerOn))) = [AtArg.int 3] ∧
    modeSetArgs (atCalls (issued
      (configureExternalModule (respondingModule "v4.77" (textReply "00:11:22:33:44:55"))
        powerOn)
      (configureExternalModule (respondingModule "v4.77" (textReply "00:11:22:33:44:55"))
        (configureExternalModule (respondingModule "v4.77" (textReply "00:11:22:33:44:55"))
          powerOn)))) = [AtArg.int 3] :=
  have h := C8_mode_depends_on_replies_only
    (respondingModule "v4.77" (textReply "00:11:22:33:44:55"))
    (respondingModule "v4.77" (textReply "00:11:22:33:44:55")) powerOn flagLeftSet
  have e1 : repliesTo isSetBaud (issued powerOn (configureExternalModule
      (respondingModule "v4.77" (textReply "00:11:22:33:44:55")) powerOn)) =
      repliesTo isSetBaud (issued flagLeftSet (configureExternalModule
        (respondingModule "v4.77" (textReply "00:11:22:33:44:55")) flagLeftSet)) := by
    simp only [repliesTo, exchanges_configure]
    rfl
  have e2 : repliesTo isVersionQuery (issued powerOn (configureExternalModule
      (respondingModule "v4.77" (textReply "00:11:22:33:44:55")) powerOn)) =
      repliesTo isVersionQuery (issued flagLeftSet (configureExternalModule
        (respondingModule "v4.77" (textReply "00:11:22:33:44:55")) flagLeftSet)) := by
    simp only [repliesTo, exchanges_configure]
    rfl
  have e3 : repliesTo isRemoteAddressQuery (issued powerOn (configureExternalModule
      (respondingModule "v4.77" (textReply "00:11:22:33:44:55")) powerOn)) =
      repliesTo isRemoteAddressQuery (issued flagLeftSet (configureExternalModule
        (respondingModule "v4.77" (textReply "00:11:22:33:44:55")) flagLeftSet)) := by
    simp only [repliesTo, exchanges_configure]
    rfl
  ⟨h.1 e1 e2 e3, h.2
    (fun _ _ => by
      show ({ ret := 1, buffer := [] } : Reply).ret ≠ 0
      decide)
    (fun _ => by
      show (textReply "v4.77").ret ≠ 0 ∧ ¬ "6.".toList <:+: cstr (textReply "v4.77").buffer
      decide)
    (fun _ => by
      show (textReply "00:11:22:33:44:55").ret ≠ 0 ∧
        cstr (textReply "00:11:22:33:44:55").buffer ≠ "NOT SET".toList
      decide)⟩

/-- C9: when the baud-rate-set succeeds, the AT calls of the run start with the
baud-rate change followed by: set name "OpenXC-VI", get device id, set
configuration timer 0, inquiry window "SI,%s\r" with "0200", page-scan window
"SJ,%s\r" with "0200", firmware version query "V\r" - whatever the outcomes. -/
theorem C9_settings_sequence_fixed (m : Module) (w : World) (rb : Reply)
    (hb : (AtCall.set_baud w.device.baudRate, rb) ∈
      exchanges (issued w (configureExternalModule m w)))
    (hbr : rb.ret ≠ 0) :
    (atCalls (issued w (configureExternalModule m w))).take 7 =
      [AtCall.set_baud w.device.baudRate,
        AtCall.set_name "OpenXC-VI" true,
        AtCall.get_device_id w.device.deviceId.length,
        AtCall.set_configuration_timer 0,
        AtCall.set ⟨"SI,%s\r", some "AOK", "ERR"⟩ (AtArg.str "0200"),
        AtCall.set ⟨"SJ,%s\r", some "AOK", "ERR"⟩ (AtArg.str "0200"),
        AtCall.get ⟨"V\r", none, "ERR"⟩ 64] := by
  rw [exchanges_configure, mem_replay_baud] at hb
  subst hb
  rw [atCalls_configure]
  unfold callsIssued
  rw [if_neg hbr]
  split_ifs <;> rfl

/-- C9 witness: the module accepts the baud rate and answers nothing else. -/
theorem C9_settings_sequence_fixed_witness :
    (baudOnlyModule [] (AtCall.set_baud 9600)).ret ≠ 0 ∧
    (atCalls (issued powerOn (configureExternalModule baudOnlyModule powerOn))).take 7 =
      [AtCall.set_baud 9600,
        AtCall.set_name "OpenXC-VI" true,
        AtCall.get_device_id 17,
        AtCall.set_configuration_timer 0,
        AtCall.set ⟨"SI,%s\r", some "AOK", "ERR"⟩ (AtArg.str "0200"),
        AtCall.set ⟨"SJ,%s\r", some "AOK", "ERR"⟩ (AtArg.str "0200"),
        AtCall.get ⟨"V\r", none, "ERR"⟩ 64] :=
  have h1 : (AtCall.set_baud powerOn.device.baudRate,
      baudOnlyModule [] (AtCall.set_baud 9600)) ∈
      exchanges (issued powerOn (configureExternalModule baudOnlyModule powerOn)) := by
    rw [exchanges_configure]; exact (mem_replay_baud _ _ _ _ _).mpr rfl
  ⟨by decide, C9_settings_sequence_fixed baudOnlyModule powerOn _ h1 (by decide)⟩

theorem issued_setStatus (p : Platform) (enabled : Bool) (w : World)
    (he : p.BLUETOOTH_ENABLE_SUPPORT = true) :
    issued w (setStatus p enabled w) =
      [Event.debug "Turning Bluetooth %s",
        Event.gpio_setValue p.BLUETOOTH_ENABLE_PORT p.BLUETOOTH_ENABLE_PIN
          (if enabled = p.BLUETOOTH_ENABLE_PIN_POLARITY then GpioValue.GPIO_VALUE_HIGH
            else GpioValue.GPIO_VALUE_LOW)] := by
  apply issued_append
  rw [setStatus_eq, if_pos he, gpio_setValue_trace, debug_trace]
  cases enabled <;> cases hp : p.BLUETOOTH_ENABLE_PIN_POLARITY <;> simp

/-- C10 (as amended): with power-enable support, `setStatus(enabled)` drives
the pin HIGH iff `enabled` equals the polarity; `deinitialize` drives it to the
off level and issues no AT exchange; when `BLUETOOTH_SUPPORT` is defined as
well, `initialize` drives the pin to the on level before its first AT
exchange; without power-enable support `setStatus` does nothing. -/
theorem C10_power_enable_pin (p : Platform) (m : Module) (w : World) (enabled : Bool) :
    (p.BLUETOOTH_ENABLE_SUPPORT = true →
      issued w (setStatus p enabled w) =
        [Event.debug "Turning Bluetooth %s",
          Event.gpio_setValue p.BLUETOOTH_ENABLE_PORT p.BLUETOOTH_ENABLE_PIN
            (if enabled = p.BLUETOOTH_ENABLE_PIN_POLARITY then GpioValue.GPIO_VALUE_HIGH
              else GpioValue.GPIO_VALUE_LOW)] ∧
      (p.BLUETOOTH_SUPPORT = true →
        (issued w (initializeBluetooth p m w)).take 4 =
          [Event.debug "Initializing Bluetooth...",
            Event.gpio_setDirection p.BLUETOOTH_ENABLE_PORT p.BLUETOOTH_ENABLE_PIN
              GpioDirection.GPIO_DIRECTION_OUTPUT,
            Event.debug "Turning Bluetooth %s",
            Event.gpio_setValue p.BLUETOOTH_ENABLE_PORT p.BLUETOOTH_ENABLE_PIN
              (if p.BLUETOOTH_ENABLE_PIN_POLARITY = true then GpioValue.GPIO_VALUE_HIGH
                else GpioValue.GPIO_VALUE_LOW)] ∧
        exchanges ((issued w (initializeBluetooth p m w)).drop 4) =
          exchanges (issued w (initializeBluetooth p m w)) ∧
        exchanges (issued w (initializeBluetooth p m w)) ≠ []) ∧
      issued w (deinitializeBluetooth p w) =
        [Event.debug "Turning Bluetooth %s",
          Event.gpio_setValue p.BLUETOOTH_ENABLE_PORT p.BLUETOOTH_ENABLE_PIN
            (if p.BLUETOOTH_ENABLE_PIN_POLARITY = true then GpioValue.GPIO_VALUE_LOW
              else GpioValue.GPIO_VALUE_HIGH)] ∧
      exchanges (issued w (deinitializeBluetooth p w)) = []) ∧
    (p.BLUETOOTH_ENABLE_SUPPORT = false → setStatus p enabled w = w) := by
  constructor
  · intro he
    refine ⟨issued_setStatus p enabled w he, ?_, ?_, ?_⟩
    · intro hs
      have hi : issued w (initializeBluetooth p m w) =
          [Event.debug "Initializing Bluetooth...",
            Event.gpio_setDirection p.BLUETOOTH_ENABLE_PORT p.BLUETOOTH_ENABLE_PIN
              GpioDirection.GPIO_DIRECTION_OUTPUT,
            Event.debug "Turning Bluetooth %s",
            Event.gpio_setValue p.BLUETOOTH_ENABLE_PORT p.BLUETOOTH_ENABLE_PIN
              (if p.BLUETOOTH_ENABLE_PIN_POLARITY = true then GpioValue.GPIO_VALUE_HIGH
                else GpioValue.GPIO_VALUE_LOW)] ++
          (issued (beforeConfigure p w) (configureExternalModule m (beforeConfigure p w)) ++
            [Event.uart_initializeCommon, Event.debug "Done."]) := by
        rw [issued_init p m w hs, issued_append _ _ _ (beforeConfigure_trace p w), if_pos he]
      have hx : exchanges (issued w (initializeBluetooth p m w)) ≠ [] := by
        rw [exchanges_init, if_pos hs]
        unfold callsIssued
        split_ifs <;> simp [replay, settingsCalls]
      refine ⟨?_, ?_, hx⟩
      · rw [hi]
        rfl
      · rw [hi, exchanges_append]
        rfl
    · unfold deinitializeBluetooth
      rw [issued_setStatus p false w he]
      cases hp : p.BLUETOOTH_ENABLE_PIN_POLARITY <;> simp
    · unfold deinitializeBluetooth
      rw [issued_setStatus p false w he]
      simp [exchanges]
  · intro hne
    rw [setStatus_eq, if_neg (by simp [hne])]

/-- C10 witness: the active-high platform. -/
theorem C10_power_enable_pin_witness :
    activeHighPlatform.BLUETOOTH_ENABLE_SUPPORT = true ∧
    activeHighPlatform.BLUETOOTH_SUPPORT = true ∧
    issued powerOn (setStatus activeHighPlatform true powerOn) =
      [Event.debug "Turning Bluetooth %s", Event.gpio_setValue 0 17 GpioValue.GPIO_VALUE_HIGH] ∧
    issued powerOn (deinitializeBluetooth activeHighPlatform powerOn) =
      [Event.debug "Turning Bluetooth %s", Event.gpio_setValue 0 17 GpioValue.GPIO_VALUE_LOW] ∧
    (issued powerOn (initializeBluetooth activeHighPlatform silentModule powerOn)).take 4 =
      [Event.debug "Initializing Bluetooth...",
        Event.gpio_setDirection 0 17 GpioDirection.GPIO_DIRECTION_OUTPUT,
        Event.debug "Turning Bluetooth %s",
        Event.gpio_setValue 0 17 GpioValue.GPIO_VALUE_HIGH] ∧
    exchanges (issued powerOn (initializeBluetooth activeHighPlatform silentModule powerOn)) ≠
      [] :=
  have h := (C10_power_enable_pin activeHighPlatform silentModule powerOn true).1 rfl
  have h2 := h.2.1 rfl
  ⟨rfl, rfl, h.1, h.2.2.1, h2.1, h2.2.2⟩

/-- C10 counterexample: with the power-enable macros defined but without
`BLUETOOTH_SUPPORT`, `initialize` does nothing at all: the pin is not driven. -/
theorem C10_no_bluetooth_support_counterexample :
    powerOnlyPlatform.BLUETOOTH_ENABLE_SUPPORT = true ∧
    initializeBluetooth powerOnlyPlatform (respondingModule "v6.15" failedReply) powerOn =
      powerOn ∧
    issued powerOn
      (initializeBluetooth powerOnlyPlatform (respondingModule "v6.15" failedReply) powerOn) =
        [] ∧
    Event.gpio_setValue 0 17 GpioValue.GPIO_VALUE_HIGH ∉ issued powerOn
      (initializeBluetooth powerOnlyPlatform (respondingModule "v6.15" failedReply) powerOn) := by
  have h : initializeBluetooth powerOnlyPlatform (respondingModule "v6.15" failedReply)
      powerOn = powerOn := by
    rw [initializeBluetooth_eq]
    rfl
  refine ⟨rfl, h, ?_, ?_⟩
  · rw [h]; rfl
  · rw [h]
    simp [issued, powerOn]

end openxc.bluetooth
